import Mathlib

/-!
Verification development for the LSC Tuya doorbell Home-Assistant integration
(custom_components/lsc_tuya_doorbell).  The definitions below are a shallow
embedding of the hub logic in `__init__.py` and the momentary-switch logic in
`switch.py`:

* `PyValue` models the dynamically typed datapoint values handled by the hub
  (None, bool, int, float, str, bytes, list, dict).
* `calculateHash` embeds `LscTuyaHub._calculate_hash` (canonical JSON /
  `str()` form, then SHA-256), including the `TypeError` that
  `json.dumps` raises on non-serialisable (bytes-containing) containers.
* `processEventPayload` embeds `LscTuyaHub._process_event_payload`,
  `extractImageUrl` embeds `LscTuyaHub._extract_image_url`.
* `handleDpsUpdate` embeds `LscTuyaHub._handle_dps_update` as a state
  transformer emitting an explicit effect trace.
* `setDp` embeds `LscTuyaHub.set_dp`; the device/environment responses
  (protocol results, status polls) are an explicit `SetDpEnv` record.
* A small transition system embeds the connect/reconnect session handling
  of `_async_connect` / `_schedule_reconnect` / `_async_reconnect`.
* `scheduleReconnectDelay` embeds the backoff computation.

Python standard-library collaborators (json, base64, utf-8, SHA-256) are
modelled by executable Lean functions; where an edge case of the library can
not influence any theorem below, the model is noted as simplified in the
corresponding doc comment.
-/

/-- Dynamically typed Python value as it can arrive from the Tuya protocol
layer.  Floats are carried by their `repr` string: no theorem below depends
on float arithmetic. -/
inductive PyValue where
  | VNone
  | VBool (b : Bool)
  | VInt (n : Int)
  | VFloat (r : String)
  | VStr (s : String)
  | VBytes (bs : List Nat)
  | VList (xs : List PyValue)
  | VDict (kvs : List (String × PyValue))
deriving Repr

/-- Association-list lookup (Python `dict.get`). -/
def alookup {α : Type} (l : List (String × α)) (k : String) : Option α :=
  match l with
  | [] => none
  | (k0, v) :: rest => if k0 = k then some v else alookup rest k

/-- Association-list insert/replace (Python `d[k] = v`). -/
def ainsert {α : Type} (l : List (String × α)) (k : String) (v : α) :
    List (String × α) :=
  match l with
  | [] => [(k, v)]
  | (k0, v0) :: rest =>
      if k0 = k then (k, v) :: rest else (k0, v0) :: ainsert rest k v

/-- Lowercase hex digit for a value below 16. -/
def hexDigit (n : Nat) : Char :=
  if n < 10 then Char.ofNat (48 + n) else Char.ofNat (87 + n)

/-- Two lowercase hex digits of a byte (Python `binascii.hexlify` per byte). -/
def hexByte (b : Nat) : String :=
  String.mk [hexDigit ((b / 16) % 16), hexDigit (b % 16)]

/-- Four lowercase hex digits, for JSON escapes. -/
def hex4 (n : Nat) : String :=
  String.mk [hexDigit ((n / 4096) % 16), hexDigit ((n / 256) % 16),
    hexDigit ((n / 16) % 16), hexDigit (n % 16)]

/-- Hex dump of a byte list (Python `binascii.hexlify(value).decode()`). -/
def hexlify (bs : List Nat) : String :=
  String.join (bs.map hexByte)

/-- Repr of one byte inside a Python `bytes` literal.  Printable ASCII stays
itself; backslash, quote, tab, newline, carriage return are escaped; other
bytes become a lowercase hex escape.  (Python chooses double quotes when the
payload contains a single quote but no double quote; that cosmetic quote
selection is simplified to always using single quotes.) -/
def byteReprChunk (b : Nat) : String :=
  if b = 92 then String.mk [Char.ofNat 92, Char.ofNat 92]
  else if b = 39 then String.mk [Char.ofNat 92, Char.ofNat 39]
  else if b = 9 then String.mk [Char.ofNat 92, Char.ofNat 116]
  else if b = 10 then String.mk [Char.ofNat 92, Char.ofNat 110]
  else if b = 13 then String.mk [Char.ofNat 92, Char.ofNat 114]
  else if 32 ≤ b ∧ b ≤ 126 then String.mk [Char.ofNat b]
  else String.mk [Char.ofNat 92, Char.ofNat 120] ++ hexByte b

/-- Python `repr` of a `bytes` object, e.g. `b'ab'`. -/
def bytesRepr (bs : List Nat) : String :=
  String.mk [Char.ofNat 98, Char.ofNat 39] ++ String.join (bs.map byteReprChunk)
    ++ String.mk [Char.ofNat 39]

/-- Repr of one character inside a Python `str` literal (quote selection
simplified to single quotes, non-ASCII kept verbatim as Python does). -/
def charReprChunk (c : Char) : String :=
  if c.toNat = 92 then String.mk [Char.ofNat 92, Char.ofNat 92]
  else if c.toNat = 39 then String.mk [Char.ofNat 92, Char.ofNat 39]
  else if c.toNat = 9 then String.mk [Char.ofNat 92, Char.ofNat 116]
  else if c.toNat = 10 then String.mk [Char.ofNat 92, Char.ofNat 110]
  else if c.toNat = 13 then String.mk [Char.ofNat 92, Char.ofNat 114]
  else if c.toNat < 32 then String.mk [Char.ofNat 92, Char.ofNat 120] ++ hexByte c.toNat
  else String.mk [c]

/-- Python `repr` of a `str`. -/
def strRepr (s : String) : String :=
  String.mk [Char.ofNat 39] ++ String.join (s.data.map charReprChunk)
    ++ String.mk [Char.ofNat 39]

mutual

/-- Python `repr(value)`: used by `str()` on containers. -/
def pyRepr : PyValue → String
  | .VNone => "None"
  | .VBool true => "True"
  | .VBool false => "False"
  | .VInt n => toString n
  | .VFloat r => r
  | .VStr s => strRepr s
  | .VBytes bs => bytesRepr bs
  | .VList xs => String.mk [Char.ofNat 91] ++ String.intercalate (", ") (pyReprItems xs)
      ++ String.mk [Char.ofNat 93]
  | .VDict kvs => String.mk [Char.ofNat 123] ++ String.intercalate (", ") (pyReprPairs kvs)
      ++ String.mk [Char.ofNat 125]

/-- Reprs of the items of a list. -/
def pyReprItems : List PyValue → List String
  | [] => []
  | x :: xs => pyRepr x :: pyReprItems xs

/-- Reprs of the key/value pairs of a dict, in insertion order. -/
def pyReprPairs : List (String × PyValue) → List String
  | [] => []
  | (k, v) :: kvs => (strRepr k ++ (": ") ++ pyRepr v) :: pyReprPairs kvs

end

/-- Python `str(value)`.  Identical to `repr` except on `str` (identity) —
on `bytes`, `str()` equals `repr()` (up to the Python-3 BytesWarning). -/
def pyStr (v : PyValue) : String :=
  match v with
  | .VStr s => s
  | v => pyRepr v

/-- Escape of one character for `json.dumps` with its default
`ensure_ascii=True` (non-ASCII becomes a lowercase scalar or surrogate-pair
escape). -/
def jsonEscapeChar (c : Char) : String :=
  let n := c.toNat
  if n = 34 then String.mk [Char.ofNat 92, Char.ofNat 34]
  else if n = 92 then String.mk [Char.ofNat 92, Char.ofNat 92]
  else if n = 8 then String.mk [Char.ofNat 92, Char.ofNat 98]
  else if n = 12 then String.mk [Char.ofNat 92, Char.ofNat 102]
  else if n = 10 then String.mk [Char.ofNat 92, Char.ofNat 110]
  else if n = 13 then String.mk [Char.ofNat 92, Char.ofNat 114]
  else if n = 9 then String.mk [Char.ofNat 92, Char.ofNat 116]
  else if n < 32 then String.mk [Char.ofNat 92, Char.ofNat 117] ++ hex4 n
  else if n ≤ 126 then String.mk [c]
  else if n ≤ 65535 then String.mk [Char.ofNat 92, Char.ofNat 117] ++ hex4 n
  else
    let m := n - 65536
    String.mk [Char.ofNat 92, Char.ofNat 117] ++ hex4 (55296 + m / 1024)
      ++ String.mk [Char.ofNat 92, Char.ofNat 117] ++ hex4 (56320 + m % 1024)

/-- JSON string literal for `json.dumps`. -/
def jsonQuote (s : String) : String :=
  String.mk [Char.ofNat 34] ++ String.join (s.data.map jsonEscapeChar)
    ++ String.mk [Char.ofNat 34]

/-- Key ordering used by `json.dumps(..., sort_keys=True)`: lexicographic on
the key component. -/
def keyLe (a b : String × String) : Bool :=
  decide (a.1 ≤ b.1)

/-- Sort rendered dict entries by key (`sort_keys=True`). -/
def sortByKey (l : List (String × String)) : List (String × String) :=
  l.mergeSort keyLe

mutual

/-- Python `json.dumps(value, sort_keys=True)` with its default separators.
Bytes are not serialisable; `calculateHash` guards that case with
`jsonSerializable` and raises, so the bytes branch here is unreachable from
`calculateHash`.  Dict entries are rendered and then ordered by key, which
agrees with CPython rendering the key-sorted entries. -/
def jsonDumps : PyValue → String
  | .VNone => "null"
  | .VBool true => "true"
  | .VBool false => "false"
  | .VInt n => toString n
  | .VFloat r => r
  | .VStr s => jsonQuote s
  | .VBytes _ => ""
  | .VList xs => String.mk [Char.ofNat 91] ++ String.intercalate (", ") (jsonDumpsItems xs)
      ++ String.mk [Char.ofNat 93]
  | .VDict kvs => String.mk [Char.ofNat 123]
      ++ String.intercalate (", ") ((sortByKey (jsonDumpsPairs kvs)).map Prod.snd)
      ++ String.mk [Char.ofNat 125]

/-- Rendered items of a JSON array. -/
def jsonDumpsItems : List PyValue → List String
  | [] => []
  | x :: xs => jsonDumps x :: jsonDumpsItems xs

/-- Dict entries rendered as `(key, "key": value)` pairs. -/
def jsonDumpsPairs : List (String × PyValue) → List (String × String)
  | [] => []
  | (k, v) :: kvs => (k, jsonQuote k ++ (": ") ++ jsonDumps v) :: jsonDumpsPairs kvs

end

mutual

/-- Whether `json.dumps` accepts the value (no `bytes` anywhere). -/
def jsonSerializable : PyValue → Bool
  | .VBytes _ => false
  | .VList xs => jsonSerializableItems xs
  | .VDict kvs => jsonSerializablePairs kvs
  | _ => true

/-- Serialisability of every item of a list. -/
def jsonSerializableItems : List PyValue → Bool
  | [] => true
  | x :: xs => jsonSerializable x && jsonSerializableItems xs

/-- Serialisability of every value of a dict. -/
def jsonSerializablePairs : List (String × PyValue) → Bool
  | [] => true
  | (_, v) :: kvs => jsonSerializable v && jsonSerializablePairs kvs

end

/-! SHA-256 (FIPS 180-4), modelling `hashlib.sha256(...).hexdigest()` on the
UTF-8 encoding of a string.  Word arithmetic is `Nat` reduced mod `2^32`. -/

/-- 32-bit rotate right. -/
def shaRotr (x n : Nat) : Nat :=
  (Nat.lor (x >>> n) (x <<< (32 - n))) % 4294967296

/-- Sum of words mod `2^32`. -/
def wsum (xs : List Nat) : Nat :=
  (xs.foldl (· + ·) 0) % 4294967296

/-- Bitwise complement within 32 bits. -/
def comp32 (x : Nat) : Nat :=
  4294967295 - x % 4294967296

/-- SHA-256 big sigma-0. -/
def shaBigS0 (x : Nat) : Nat :=
  Nat.xor (shaRotr x 2) (Nat.xor (shaRotr x 13) (shaRotr x 22))

/-- SHA-256 big sigma-1. -/
def shaBigS1 (x : Nat) : Nat :=
  Nat.xor (shaRotr x 6) (Nat.xor (shaRotr x 11) (shaRotr x 25))

/-- SHA-256 small sigma-0. -/
def shaSmallS0 (x : Nat) : Nat :=
  Nat.xor (shaRotr x 7) (Nat.xor (shaRotr x 18) (x >>> 3))

/-- SHA-256 small sigma-1. -/
def shaSmallS1 (x : Nat) : Nat :=
  Nat.xor (shaRotr x 17) (Nat.xor (shaRotr x 19) (x >>> 10))

/-- SHA-256 choice function. -/
def shaCh (e f g : Nat) : Nat :=
  Nat.xor (Nat.land e f) (Nat.land (comp32 e) g)

/-- SHA-256 majority function. -/
def shaMaj (a b c : Nat) : Nat :=
  Nat.xor (Nat.xor (Nat.land a b) (Nat.land a c)) (Nat.land b c)

/-- SHA-256 round constants. -/
def shaK : List Nat :=
  [1116352408, 1899447441, 3049323471, 3921009573, 961987163,
   1508970993, 2453635748, 2870763221, 3624381080, 310598401,
   607225278, 1426881987, 1925078388, 2162078206, 2614888103,
   3248222580, 3835390401, 4022224774, 264347078, 604807628,
   770255983, 1249150122, 1555081692, 1996064986, 2554220882,
   2821834349, 2952996808, 3210313671, 3336571891, 3584528711,
   113926993, 338241895, 666307205, 773529912, 1294757372,
   1396182291, 1695183700, 1986661051, 2177026350, 2456956037,
   2730485921, 2820302411, 3259730800, 3345764771, 3516065817,
   3600352804, 4094571909, 275423344, 430227734, 506948616,
   659060556, 883997877, 958139571, 1322822218, 1537002063,
   1747873779, 1955562222, 2024104815, 2227730452, 2361852424,
   2428436474, 2756734187, 3204031479, 3329325298]

/-- SHA-256 initial hash state. -/
def shaH0 : List Nat :=
  [1779033703, 3144134277, 1013904242, 2773480762,
   1359893119, 2600822924, 528734635, 1541459225]

/-- Big-endian bytes of a value, widest byte first. -/
def beBytes (width n : Nat) : List Nat :=
  ((List.range width).reverse).map (fun i => (n >>> (8 * i)) % 256)

/-- SHA-256 message padding on a byte list. -/
def shaPad (msg : List Nat) : List Nat :=
  let l := msg.length
  let k := (64 + 55 - (l + 1) % 64) % 64
  msg ++ [128] ++ List.replicate k 0 ++ beBytes 8 (8 * l)

/-- Split a byte list into 64-byte blocks (fuel is the list length). -/
def chunks64 : Nat → List Nat → List (List Nat)
  | 0, _ => []
  | _ + 1, [] => []
  | fuel + 1, l => l.take 64 :: chunks64 fuel (l.drop 64)

/-- Pack bytes into big-endian 32-bit words (fuel is the list length). -/
def packWords : Nat → List Nat → List Nat
  | 0, _ => []
  | _ + 1, [] => []
  | fuel + 1, l =>
      (l.take 4).foldl (fun acc b => acc * 256 + b % 256) 0 :: packWords fuel (l.drop 4)

/-- Extend the 16 message words to 64 schedule words. -/
def extendWords : Nat → List Nat → List Nat
  | 0, w => w
  | n + 1, w =>
      let i := w.length
      let x := wsum [shaSmallS1 (w.getD (i - 2) 0), w.getD (i - 7) 0,
        shaSmallS0 (w.getD (i - 15) 0), w.getD (i - 16) 0]
      extendWords n (w ++ [x])

/-- One SHA-256 round on the eight-word working state. -/
def shaRound (st : List Nat) (kw : Nat × Nat) : List Nat :=
  let a := st.getD 0 0
  let b := st.getD 1 0
  let c := st.getD 2 0
  let d := st.getD 3 0
  let e := st.getD 4 0
  let f := st.getD 5 0
  let g := st.getD 6 0
  let h := st.getD 7 0
  let t1 := wsum [h, shaBigS1 e, shaCh e f g, kw.1, kw.2]
  let t2 := wsum [shaBigS0 a, shaMaj a b c]
  [wsum [t1, t2], a, b, c, wsum [d, t1], e, f, g]

/-- Compress one 64-byte block into the hash state. -/
def shaCompress (hs : List Nat) (block : List Nat) : List Nat :=
  let w := extendWords 48 (packWords (block.length) block)
  let fin := (shaK.zip w).foldl shaRound hs
  (hs.zip fin).map (fun p => wsum [p.1, p.2])

/-- SHA-256 digest of a byte list, as the list of eight hash words. -/
def sha256Words (msg : List Nat) : List Nat :=
  let padded := shaPad msg
  (chunks64 (padded.length) padded).foldl shaCompress shaH0

/-- Eight lowercase hex digits of a 32-bit word. -/
def hex8 (n : Nat) : String :=
  hex4 ((n / 65536) % 65536) ++ hex4 (n % 65536)

/-- Lowercase hex digest of the SHA-256 of the UTF-8 bytes of a string,
modelling `hashlib.sha256(s.encode('utf-8')).hexdigest()`. -/
def sha256hex (s : String) : String :=
  String.join ((sha256Words (s.toUTF8.toList.map (fun b => b.toNat))).map hex8)

/-- Embedding of `LscTuyaHub._calculate_hash` (`__init__.py` 548-558):
canonical sorted-key JSON for dicts and lists, `str(value)` otherwise, then
SHA-256.  `json.dumps` raises `TypeError` on containers holding `bytes`;
that raise is modelled by the `.error` branch. -/
def calculateHash (v : PyValue) : Except String String :=
  match v with
  | .VDict kvs =>
      if jsonSerializable (.VDict kvs) then .ok (sha256hex (jsonDumps (.VDict kvs)))
      else .error ("TypeError: Object of type bytes is not JSON serializable")
  | .VList xs =>
      if jsonSerializable (.VList xs) then .ok (sha256hex (jsonDumps (.VList xs)))
      else .error ("TypeError: Object of type bytes is not JSON serializable")
  | v => .ok (sha256hex (pyStr v))

/-! Helper lemmas about the canonical JSON form: key-order independence. -/

/-- Rendering one dict entry for `jsonDumps`. -/
def renderEntry (kv : String × PyValue) : String × String :=
  (kv.1, jsonQuote kv.1 ++ (": ") ++ jsonDumps kv.2)

theorem jsonDumpsPairs_eq_map (kvs : List (String × PyValue)) :
    jsonDumpsPairs kvs = kvs.map renderEntry := by
  induction kvs with
  | nil => simp [jsonDumpsPairs]
  | cons kv rest ih =>
      obtain ⟨k, v⟩ := kv
      simp [jsonDumpsPairs, renderEntry, ih]

theorem map_fst_jsonDumpsPairs (kvs : List (String × PyValue)) :
    (jsonDumpsPairs kvs).map Prod.fst = kvs.map Prod.fst := by
  induction kvs with
  | nil => simp [jsonDumpsPairs]
  | cons kv rest ih =>
      obtain ⟨k, v⟩ := kv
      simp [jsonDumpsPairs, ih]

theorem keyLe_trans (a b c : String × String)
    (hab : keyLe a b = true) (hbc : keyLe b c = true) : keyLe a c = true := by
  simp only [keyLe, decide_eq_true_eq] at *
  exact le_trans hab hbc

theorem keyLe_total (a b : String × String) : (keyLe a b || keyLe b a) = true := by
  simp only [keyLe, Bool.or_eq_true, decide_eq_true_eq]
  exact le_total a.1 b.1

/-- Two permuted rendered-entry lists with no duplicate keys sort to the same
list. -/
theorem sortByKey_eq_of_perm {l1 l2 : List (String × String)}
    (hp : l1.Perm l2) (hnd : (l1.map Prod.fst).Nodup) :
    sortByKey l1 = sortByKey l2 := by
  have hperm : (sortByKey l1).Perm (sortByKey l2) :=
    ((List.mergeSort_perm l1 keyLe).trans hp).trans (List.mergeSort_perm l2 keyLe).symm
  have hs1 := List.sorted_mergeSort keyLe_trans keyLe_total l1
  have hs2 := List.sorted_mergeSort keyLe_trans keyLe_total l2
  have hnd1 : ((sortByKey l1).map Prod.fst).Nodup :=
    (((List.mergeSort_perm l1 keyLe).map Prod.fst).nodup_iff).mpr hnd
  have hnd2 : ((sortByKey l2).map Prod.fst).Nodup :=
    ((((List.mergeSort_perm l2 keyLe).trans hp.symm).map Prod.fst).nodup_iff).mpr hnd
  have hne1 : (sortByKey l1).Pairwise (fun a b => a.1 ≠ b.1) := List.pairwise_map.mp hnd1
  have hne2 : (sortByKey l2).Pairwise (fun a b => a.1 ≠ b.1) := List.pairwise_map.mp hnd2
  have hlt1 : (sortByKey l1).Pairwise (fun a b : String × String => a.1 < b.1) :=
    (hs1.and hne1).imp (fun h =>
      lt_of_le_of_ne (by simpa [keyLe] using h.1) h.2)
  have hlt2 : (sortByKey l2).Pairwise (fun a b : String × String => a.1 < b.1) :=
    (hs2.and hne2).imp (fun h =>
      lt_of_le_of_ne (by simpa [keyLe] using h.1) h.2)
  haveI : IsAntisymm (String × String) (fun a b => a.1 < b.1) :=
    ⟨fun _ _ h1 h2 => absurd h2 (lt_asymm h1)⟩
  exact List.eq_of_perm_of_sorted hperm hlt1 hlt2

theorem jsonDumps_dict_perm {kvs kvs' : List (String × PyValue)}
    (hp : kvs.Perm kvs') (hnd : (kvs.map Prod.fst).Nodup) :
    jsonDumps (.VDict kvs) = jsonDumps (.VDict kvs') := by
  have hperm2 : (jsonDumpsPairs kvs).Perm (jsonDumpsPairs kvs') := by
    rw [jsonDumpsPairs_eq_map, jsonDumpsPairs_eq_map]
    exact hp.map renderEntry
  have hkeys : ((jsonDumpsPairs kvs).map Prod.fst).Nodup := by
    rw [map_fst_jsonDumpsPairs]; exact hnd
  have hsort := sortByKey_eq_of_perm hperm2 hkeys
  simp only [jsonDumps, hsort]

theorem jsonSerializablePairs_eq_all (kvs : List (String × PyValue)) :
    jsonSerializablePairs kvs = kvs.all (fun kv => jsonSerializable kv.2) := by
  induction kvs with
  | nil => simp [jsonSerializablePairs]
  | cons kv rest ih =>
      obtain ⟨k, v⟩ := kv
      simp [jsonSerializablePairs, ih]

theorem all_eq_of_perm {α : Type} {l1 l2 : List α} {p : α → Bool}
    (h : l1.Perm l2) : l1.all p = l2.all p := by
  cases hb : l2.all p with
  | true =>
      rw [List.all_eq_true] at *
      exact fun x hx => hb x (h.mem_iff.mp hx)
  | false =>
      by_contra hcon
      have h1 : l1.all p = true := by
        cases hq : l1.all p
        · exact absurd hq hcon
        · rfl
      rw [List.all_eq_true] at h1
      have : l2.all p = true := List.all_eq_true.mpr (fun x hx => h1 x (h.mem_iff.mpr hx))
      rw [this] at hb
      cases hb

theorem jsonSerializable_dict_perm {kvs kvs' : List (String × PyValue)}
    (hp : kvs.Perm kvs') :
    jsonSerializable (.VDict kvs) = jsonSerializable (.VDict kvs') := by
  simp only [jsonSerializable, jsonSerializablePairs_eq_all]
  exact all_eq_of_perm hp

/-- Content-hash invariance under reordering of dict entries. -/
theorem calculateHash_dict_perm {kvs kvs' : List (String × PyValue)}
    (hp : kvs.Perm kvs') (hnd : (kvs.map Prod.fst).Nodup) :
    calculateHash (.VDict kvs) = calculateHash (.VDict kvs') := by
  simp only [calculateHash]
  rw [show jsonSerializable (.VDict kvs') = jsonSerializable (.VDict kvs) from
    (jsonSerializable_dict_perm hp).symm]
  by_cases h : jsonSerializable (.VDict kvs) = true
  · simp only [h, if_true, jsonDumps_dict_perm hp hnd]
  · simp only [Bool.not_eq_true] at h
    simp only [h, Bool.false_eq_true, if_false]

/-! Low-level models of standard-library collaborators used by the decoder. -/

/-- Whether the first list is a prefix of the second (character lists). -/
def listHasPrefixCh : List Char → List Char → Bool
  | [], _ => true
  | _ :: _, [] => false
  | p :: ps, h :: hs => p == h && listHasPrefixCh ps hs

/-- Whether the first list occurs as a contiguous sublist of the second,
modelling the Python `in` operator on strings. -/
def listHasSub (pat : List Char) : List Char → Bool
  | [] => pat.isEmpty
  | c :: hs => listHasPrefixCh pat (c :: hs) || listHasSub pat hs

/-- Python `needle in haystack` on strings. -/
def strHasSub (pat s : String) : Bool :=
  listHasSub pat.data s.data

/-- Python `str.lower()`, modelled per character (the tailoring of
multi-character case folds does not arise for the ASCII needles used by the
hub). -/
def strLower (s : String) : String :=
  String.mk (s.data.map Char.toLower)

/-- Continuation byte test for UTF-8. -/
def utf8Cont (b : Nat) : Bool :=
  decide (128 ≤ b) && decide (b < 192)

/-- Strict UTF-8 decoding of a byte list (Python `bytes.decode('utf-8')`):
rejects stray continuation bytes, overlong forms, surrogates and
out-of-range code points.  Fuel is the byte count. -/
def utf8DecodeGo : Nat → List Nat → Option (List Char)
  | _, [] => some []
  | 0, _ :: _ => none
  | fuel + 1, b :: rest =>
    if b < 128 then (utf8DecodeGo fuel rest).map (fun cs => Char.ofNat b :: cs)
    else if b < 194 then none
    else if b < 224 then
      match rest with
      | b2 :: rest2 =>
          if utf8Cont b2 then
            (utf8DecodeGo fuel rest2).map
              (fun cs => Char.ofNat ((b - 192) * 64 + (b2 - 128)) :: cs)
          else none
      | [] => none
    else if b < 240 then
      match rest with
      | b2 :: b3 :: rest2 =>
          if utf8Cont b2 && utf8Cont b3 then
            let cp := (b - 224) * 4096 + (b2 - 128) * 64 + (b3 - 128)
            if cp < 2048 then none
            else if 55296 ≤ cp ∧ cp ≤ 57343 then none
            else (utf8DecodeGo fuel rest2).map (fun cs => Char.ofNat cp :: cs)
          else none
      | _ => none
    else if b < 245 then
      match rest with
      | b2 :: b3 :: b4 :: rest2 =>
          if utf8Cont b2 && utf8Cont b3 && utf8Cont b4 then
            let cp := (b - 240) * 262144 + (b2 - 128) * 4096 + (b3 - 128) * 64 + (b4 - 128)
            if cp < 65536 then none
            else if cp > 1114111 then none
            else (utf8DecodeGo fuel rest2).map (fun cs => Char.ofNat cp :: cs)
          else none
      | _ => none
    else none

/-- Python `bytes.decode('utf-8')` as an optional string. -/
def utf8Decode (bs : List Nat) : Option String :=
  (utf8DecodeGo bs.length bs).map String.mk

/-- Value of a standard-alphabet base64 character. -/
def b64CharVal (c : Char) : Option Nat :=
  if 65 ≤ c.toNat ∧ c.toNat ≤ 90 then some (c.toNat - 65)
  else if 97 ≤ c.toNat ∧ c.toNat ≤ 122 then some (c.toNat - 71)
  else if 48 ≤ c.toNat ∧ c.toNat ≤ 57 then some (c.toNat + 4)
  else if c.toNat = 43 then some 62
  else if c.toNat = 47 then some 63
  else none

/-- Decode cleaned base64 text in groups of four characters.  Padding is only
accepted in the final group, as one or two trailing `=`. -/
def b64Groups : Nat → List Char → Except String (List Nat)
  | _, [] => .ok []
  | 0, _ :: _ => .error ("fuel")
  | fuel + 1, c1 :: c2 :: c3 :: c4 :: rest =>
    (match b64CharVal c1, b64CharVal c2 with
     | some v1, some v2 =>
       if c3.toNat = 61 ∧ c4.toNat = 61 ∧ rest = [] then .ok [v1 * 4 + v2 / 16]
       else
         match b64CharVal c3 with
         | some v3 =>
           if c4.toNat = 61 ∧ rest = [] then .ok [v1 * 4 + v2 / 16, (v2 % 16) * 16 + v3 / 4]
           else
             match b64CharVal c4 with
             | some v4 =>
                 (b64Groups fuel rest).map
                   (fun tl => (v1 * 4 + v2 / 16) :: ((v2 % 16) * 16 + v3 / 4) :: ((v3 % 4) * 64 + v4) :: tl)
             | none => .error ("binascii.Error: Invalid base64-encoded string")
         | none => .error ("binascii.Error: Invalid base64-encoded string")
     | _, _ => .error ("binascii.Error: Invalid base64-encoded string"))
  | _, _ => .error ("binascii.Error: Incorrect padding")

/-- Model of `base64.b64decode(s)` with its default `validate=False`:
non-ASCII input raises, characters outside the alphabet are discarded, and
the remaining length must be a multiple of four.  (Exotic placements of `=`
inside the stream are rejected rather than truncated; no theorem depends on
that corner.) -/
def b64decodeStd (s : String) : Except String (List Nat) :=
  if s.data.any (fun c => c.toNat > 127) then .error ("ValueError: string argument should contain only ASCII characters")
  else
    let cs := s.data.filter (fun c => (b64CharVal c).isSome || c.toNat = 61)
    if cs.length % 4 ≠ 0 then .error ("binascii.Error: Incorrect padding")
    else b64Groups cs.length cs

/-- Model of `base64.urlsafe_b64decode`: translate `-`/`_` to `+`/`/`, then
standard decoding. -/
def b64decodeUrlsafe (s : String) : Except String (List Nat) :=
  b64decodeStd (String.mk (s.data.map
    (fun c => if c.toNat = 45 then Char.ofNat 43
              else if c.toNat = 95 then Char.ofNat 47 else c)))

/-- JSON whitespace skip. -/
def jsonWs (cs : List Char) : List Char :=
  cs.dropWhile (fun c => c.toNat = 32 ∨ c.toNat = 9 ∨ c.toNat = 10 ∨ c.toNat = 13)

/-- Hex digit value. -/
def hexVal (c : Char) : Option Nat :=
  if 48 ≤ c.toNat ∧ c.toNat ≤ 57 then some (c.toNat - 48)
  else if 97 ≤ c.toNat ∧ c.toNat ≤ 102 then some (c.toNat - 87)
  else if 65 ≤ c.toNat ∧ c.toNat ≤ 70 then some (c.toNat - 55)
  else none

/-- Parse exactly four hex digits. -/
def parseHex4 : List Char → Option (Nat × List Char)
  | c1 :: c2 :: c3 :: c4 :: rest =>
    (match hexVal c1, hexVal c2, hexVal c3, hexVal c4 with
     | some v1, some v2, some v3, some v4 => some (((v1 * 16 + v2) * 16 + v3) * 16 + v4, rest)
     | _, _, _, _ => none)
  | _ => none

/-- Simple JSON escape characters. -/
def jsonEscMap (c : Char) : Option Char :=
  if c.toNat = 34 then some (Char.ofNat 34)
  else if c.toNat = 92 then some (Char.ofNat 92)
  else if c.toNat = 47 then some (Char.ofNat 47)
  else if c.toNat = 98 then some (Char.ofNat 8)
  else if c.toNat = 102 then some (Char.ofNat 12)
  else if c.toNat = 110 then some (Char.ofNat 10)
  else if c.toNat = 114 then some (Char.ofNat 13)
  else if c.toNat = 116 then some (Char.ofNat 9)
  else none

/-- Parse a JSON string body after the opening quote (Python `json.loads`
semantics; a lone surrogate escape, unrepresentable in a Lean `Char`, is
rejected instead of producing a surrogate-bearing `str`). -/
def parseJStr : Nat → List Char → Option (List Char × List Char)
  | 0, _ => none
  | fuel + 1, cs =>
    match cs with
    | [] => none
    | c :: rest =>
      if c.toNat = 34 then some ([], rest)
      else if c.toNat = 92 then
        match rest with
        | [] => none
        | e :: rest2 =>
          if e.toNat = 117 then
            match parseHex4 rest2 with
            | none => none
            | some (n, rest3) =>
              if 55296 ≤ n ∧ n ≤ 56319 then
                match rest3 with
                | c5 :: c6 :: rest4 =>
                  if c5.toNat = 92 ∧ c6.toNat = 117 then
                    match parseHex4 rest4 with
                    | some (n2, rest5) =>
                      if 56320 ≤ n2 ∧ n2 ≤ 57343 then
                        (parseJStr fuel rest5).map
                          (fun p => (Char.ofNat (65536 + (n - 55296) * 1024 + (n2 - 56320)) :: p.1, p.2))
                      else none
                    | none => none
                  else none
                | _ => none
              else if 56320 ≤ n ∧ n ≤ 57343 then none
              else (parseJStr fuel rest3).map (fun p => (Char.ofNat n :: p.1, p.2))
          else
            match jsonEscMap e with
            | some ch => (parseJStr fuel rest2).map (fun p => (ch :: p.1, p.2))
            | none => none
      else if c.toNat < 32 then none
      else (parseJStr fuel rest).map (fun p => (c :: p.1, p.2))

/-- ASCII digit test. -/
def isDigitCh (c : Char) : Bool :=
  decide (48 ≤ c.toNat) && decide (c.toNat ≤ 57)

/-- Digits to a natural number. -/
def digitsToNat (ds : List Char) : Nat :=
  ds.foldl (fun acc c => acc * 10 + (c.toNat - 48)) 0

/-- Parse a JSON number.  An integer literal becomes `VInt`; a literal with a
fraction or exponent becomes `VFloat` carrying the literal text (Python would
round-trip it through a double; no theorem depends on float values). -/
def parseJNum (cs : List Char) : Option (PyValue × List Char) :=
  let (neg, cs1) :=
    match cs with
    | c :: rest => if c.toNat = 45 then (true, rest) else (false, cs)
    | [] => (false, cs)
  let intPart := cs1.takeWhile isDigitCh
  let cs2 := cs1.dropWhile isDigitCh
  if intPart = [] then none
  else if intPart.length > 1 ∧ intPart.headD (Char.ofNat 48) = Char.ofNat 48 then none
  else
    let (fracTxt, cs3) :=
      match cs2 with
      | c :: rest =>
        if c.toNat = 46 then
          let fd := rest.takeWhile isDigitCh
          if fd = [] then ([], cs2) else (c :: fd, rest.dropWhile isDigitCh)
        else ([], cs2)
      | [] => ([], cs2)
    let (expTxt, cs4) :=
      match cs3 with
      | c :: rest =>
        if c.toNat = 101 ∨ c.toNat = 69 then
          match rest with
          | s :: rest2 =>
            if s.toNat = 43 ∨ s.toNat = 45 then
              let ed := rest2.takeWhile isDigitCh
              if ed = [] then ([], cs3) else (c :: s :: ed, rest2.dropWhile isDigitCh)
            else
              let ed := rest.takeWhile isDigitCh
              if ed = [] then ([], cs3) else (c :: ed, rest.dropWhile isDigitCh)
          | [] => ([], cs3)
        else ([], cs3)
      | [] => ([], cs3)
    if fracTxt = [] ∧ expTxt = [] then
      let n : Int := Int.ofNat (digitsToNat intPart)
      some (.VInt (if neg then -n else n), cs2)
    else
      let txt := (if neg then [Char.ofNat 45] else []) ++ intPart ++ fracTxt ++ expTxt
      some (.VFloat (String.mk txt), cs4)

mutual

/-- Recursive-descent model of `json.loads` on a character list; returns the
parsed value and the unconsumed rest.  Fuel decreases on each recursive
call; `jsonLoads` supplies more fuel than any input can consume. -/
def parseJsonF : Nat → List Char → Option (PyValue × List Char)
  | 0, _ => none
  | fuel + 1, cs =>
    match jsonWs cs with
    | [] => none
    | c :: rest =>
      if c.toNat = 116 then
        match rest with
        | r :: u :: e :: rest2 =>
            if r.toNat = 114 ∧ u.toNat = 117 ∧ e.toNat = 101 then some (.VBool true, rest2) else none
        | _ => none
      else if c.toNat = 102 then
        match rest with
        | a :: l :: s :: e :: rest2 =>
            if a.toNat = 97 ∧ l.toNat = 108 ∧ s.toNat = 115 ∧ e.toNat = 101 then
              some (.VBool false, rest2)
            else none
        | _ => none
      else if c.toNat = 110 then
        match rest with
        | u :: l :: l2 :: rest2 =>
            if u.toNat = 117 ∧ l.toNat = 108 ∧ l2.toNat = 108 then some (.VNone, rest2) else none
        | _ => none
      else if c.toNat = 34 then
        (parseJStr fuel rest).map (fun p => (.VStr (String.mk p.1), p.2))
      else if c.toNat = 91 then
        match jsonWs rest with
        | d :: rest2 =>
            if d.toNat = 93 then some (.VList [], rest2)
            else (parseJItems fuel (jsonWs rest)).map (fun p => (.VList p.1, p.2))
        | [] => none
      else if c.toNat = 123 then
        match jsonWs rest with
        | d :: rest2 =>
            if d.toNat = 125 then some (.VDict [], rest2)
            else (parseJPairs fuel (jsonWs rest) []).map (fun p => (.VDict p.1, p.2))
        | [] => none
      else if c.toNat = 45 ∨ isDigitCh c then parseJNum (c :: rest)
      else none

/-- Items of a JSON array, expecting at least one. -/
def parseJItems : Nat → List Char → Option (List PyValue × List Char)
  | 0, _ => none
  | fuel + 1, cs =>
    match parseJsonF fuel cs with
    | none => none
    | some (v, r) =>
      match jsonWs r with
      | c :: r2 =>
          if c.toNat = 44 then (parseJItems fuel r2).map (fun p => (v :: p.1, p.2))
          else if c.toNat = 93 then some ([v], r2)
          else none
      | [] => none

/-- Members of a JSON object, expecting at least one; later duplicates of a
key replace earlier ones as in a Python dict. -/
def parseJPairs : Nat → List Char → List (String × PyValue) →
    Option (List (String × PyValue) × List Char)
  | 0, _, _ => none
  | fuel + 1, cs, acc =>
    match jsonWs cs with
    | c :: rest =>
      if c.toNat = 34 then
        match parseJStr fuel rest with
        | none => none
        | some (kcs, r) =>
          match jsonWs r with
          | d :: r2 =>
            if d.toNat = 58 then
              match parseJsonF fuel r2 with
              | none => none
              | some (v, r3) =>
                let acc2 := ainsert acc (String.mk kcs) v
                match jsonWs r3 with
                | e :: r4 =>
                    if e.toNat = 44 then parseJPairs fuel r4 acc2
                    else if e.toNat = 125 then some (acc2, r4)
                    else none
                | [] => none
            else none
          | [] => none
      else none
    | [] => none

end

/-- Model of `json.loads`: whole-input parse. -/
def jsonLoads (s : String) : Option PyValue :=
  match parseJsonF (s.length + 8) s.data with
  | some (v, rest) => if jsonWs rest = [] then some v else none
  | none => none

/-! Embedding of the payload decoder `LscTuyaHub._process_event_payload`
(`__init__.py` 560-677) and the image-URL extractor `_extract_image_url`
(679-758). -/

/-- Python `%`-formatting of a string against an integer argument
(`s % n`).  The decoder applies it (by operator precedence) to the padding
string `"=" * (4 - len(value) % 4)`, at `__init__.py` line 601.  A format
string without any conversion specifier — in particular any non-empty run
of `=` — raises `TypeError: not all arguments converted during string
formatting`; a string containing `%` is outside what the hub can produce and
is mapped to a distinct error. -/
def pyStrFormatMod (s : String) (_n : Int) : Except String String :=
  if s.data.any (fun c => c.toNat = 37) then
    .error ("unmodelled %-conversion")
  else
    .error ("TypeError: not all arguments converted during string formatting")

/-- Base64-then-UTF-8-then-JSON attempt used by the decoder. -/
def tryB64Json (dec : String → Except String (List Nat)) (s : String) : Option PyValue :=
  match dec s with
  | .error _ => none
  | .ok bs =>
    match utf8Decode bs with
    | none => none
    | some txt => jsonLoads txt

/-- Padding loop of the decoder: append `=` until the length is a multiple
of four (`__init__.py` 588-590). -/
def padB64 (s : String) : String :=
  s ++ String.mk (List.replicate ((4 - s.length % 4) % 4) (Char.ofNat 61))

/-- URL-safe attempt of the decoder (`__init__.py` 599-606).  The padding
expression `"=" * (4 - len(value) % 4) % 4` applies `%` to the padding
string, which always raises before `urlsafe_b64decode` runs; the exception
is swallowed by the surrounding handler, so this attempt never succeeds. -/
def tryUrlsafeB64Json (s : String) : Option PyValue :=
  match pyStrFormatMod (String.mk (List.replicate (4 - s.length % 4) (Char.ofNat 61))) 4 with
  | .error _ => none
  | .ok pad => tryB64Json b64decodeUrlsafe (s ++ pad)

/-- Quote repair of the decoder: `value.replace("'", '"')`. -/
def fixQuotes (s : String) : String :=
  String.mk (s.data.map (fun c => if c.toNat = 39 then Char.ofNat 34 else c))

/-- Model of `re.search(r'(\{.*\}|\[.*\])', value)` (`__init__.py` 632-635):
the match starts at the leftmost `{` (or `[`) that has a matching closer
later, and extends greedily to the last such closer.  (The regex `.` does
not cross newlines; that refinement does not affect any theorem and is
omitted.) -/
def lastIdxOf (t : Nat) (cs : List Char) : Option Nat :=
  match cs with
  | [] => none
  | c :: rest =>
    match lastIdxOf t rest with
    | some i => some (i + 1)
    | none => if c.toNat = t then some 0 else none

/-- Scan for the regex match described at `lastIdxOf`. -/
def extractJsonSub : List Char → Option (List Char)
  | [] => none
  | c :: rest =>
    if c.toNat = 123 then
      match lastIdxOf 125 rest with
      | some i => some (c :: rest.take (i + 1))
      | none => extractJsonSub rest
    else if c.toNat = 91 then
      match lastIdxOf 93 rest with
      | some i => some (c :: rest.take (i + 1))
      | none => extractJsonSub rest
    else extractJsonSub rest

/-- Final string-wrapping branch of the decoder (Case 8). -/
def stringWrap (v : PyValue) : PyValue × String :=
  (.VDict [("string_value", .VStr (pyStr v))], "string")

/-- Embedding of `LscTuyaHub._process_event_payload` (`__init__.py`
560-677).  Every Python branch that can raise is wrapped in a handler
falling through to the next strategy, so the embedding is a total function
returning the decoded payload and the strategy tag. -/
def processEventPayload (value : PyValue) : PyValue × String :=
  match value with
  | .VDict kvs => (.VDict kvs, "direct_dict")
  | .VStr s =>
    (match tryB64Json b64decodeStd s with
     | some p => (p, "base64_json")
     | none =>
       match tryB64Json b64decodeStd (padB64 s) with
       | some p => (p, "padded_base64_json")
       | none =>
         match tryUrlsafeB64Json s with
         | some p => (p, "urlsafe_base64_json")
         | none =>
           match jsonLoads s with
           | some p => (p, "direct_json")
           | none =>
             match jsonLoads (fixQuotes s) with
             | some p => (p, "fixed_json_quotes")
             | none =>
               match extractJsonSub s.data with
               | some sub =>
                 (match jsonLoads (String.mk sub) with
                  | some p => (p, "extracted_json")
                  | none => stringWrap (.VStr s))
               | none => stringWrap (.VStr s))
  | .VBytes bs =>
    (match utf8Decode bs with
     | some txt =>
       (match jsonLoads txt with
        | some p => (p, "bytes_utf8_json")
        | none => (.VDict [("string_value", .VStr txt)], "bytes_utf8"))
     | none => (.VDict [("hex_data", .VStr (hexlify bs))], "bytes_hex"))
  | .VBool b => (.VDict [("boolean_value", .VBool b)], "boolean")
  | .VInt n => (.VDict [("numeric_value", .VInt n)], "numeric")
  | .VFloat r => (.VDict [("numeric_value", .VFloat r)], "numeric")
  | .VList xs => stringWrap (.VList xs)
  | .VNone => (.VDict [("raw_value", .VNone)], "fallback")

/-- Python truthiness (`if x:`).  Float truthiness is judged on the carried
repr text; only the values `0.0`/`-0.0` are falsy. -/
def pyTruthy : PyValue → Bool
  | .VNone => false
  | .VBool b => b
  | .VInt n => decide (n ≠ 0)
  | .VFloat r => decide (r ≠ "0.0") && decide (r ≠ "-0.0")
  | .VStr s => decide (s ≠ "")
  | .VBytes bs => decide (bs ≠ [])
  | .VList xs => !xs.isEmpty
  | .VDict kvs => !kvs.isEmpty

/-- Default Tuya cloud-storage bucket (`const.py` DEFAULT_BUCKET). -/
def defaultBucket : String := "ty-us-storage30-pic"

/-- Cloud-storage host fragment used in every constructed URL. -/
def ossHost : String := ".oss-us-west-1.aliyuncs.com"

/-- Format 1 of `_extract_image_url`: bucket plus file list. -/
def extractFmt1 (p : List (String × PyValue)) : Option String :=
  match alookup p "bucket", alookup p "files" with
  | some bv, some (.VList (first :: _)) =>
    (match first with
     | .VList (pathv :: _) => some ("https://" ++ pyStr bv ++ ossHost ++ pyStr pathv)
     | _ => none)
  | _, _ => none

/-- Formats 2 and 3 of `_extract_image_url`: a direct URL under the given
key. -/
def extractDirectUrl (key : String) (p : List (String × PyValue)) : Option String :=
  match alookup p key with
  | some (.VStr u) =>
      if u.startsWith ("http://") || u.startsWith ("https://") then some u else none
  | _ => none

/-- Format 4 of `_extract_image_url`: `fileId` and `timeStamp`. -/
def extractFmt4 (p : List (String × PyValue)) : Option String :=
  match alookup p "fileId", alookup p "timeStamp" with
  | some fv, some tv =>
    if pyTruthy fv && pyTruthy tv then
      let bucket := (alookup p "bucket").getD (.VStr defaultBucket)
      some ("https://" ++ pyStr bucket ++ ossHost ++ "/tuya-doorbell/" ++ pyStr fv
        ++ "_" ++ pyStr tv ++ ".jpg")
    else none
  | _, _ => none

/-- Format 5 of `_extract_image_url`: scan values for URL-shaped or
image-path-shaped strings. -/
def extractFmt5 : List (String × PyValue) → Option String
  | [] => none
  | (_, v) :: rest =>
    match v with
    | .VStr sv =>
      if sv.startsWith ("http://") || sv.startsWith ("https://") then some sv
      else if sv.startsWith ("/") &&
          (strHasSub ".jpg" (strLower sv) || strHasSub ".jpeg" (strLower sv)
            || strHasSub ".png" (strLower sv)) then
        some ("https://" ++ defaultBucket ++ ossHost ++ sv)
      else extractFmt5 rest
    | _ => extractFmt5 rest

mutual

/-- Embedding of `LscTuyaHub._extract_image_url` (`__init__.py` 679-758):
formats 1-5 in order, then recursive descent into nested dict values
(format 6).  Non-dict payloads yield `none`. -/
def extractImageUrl : PyValue → Option String
  | .VDict kvs =>
    (match extractFmt1 kvs with
     | some u => some u
     | none =>
       match extractDirectUrl "url" kvs with
       | some u => some u
       | none =>
         match extractDirectUrl "image_url" kvs with
         | some u => some u
         | none =>
           match extractFmt4 kvs with
           | some u => some u
           | none =>
             match extractFmt5 kvs with
             | some u => some u
             | none => extractNested kvs)
  | _ => none

/-- Format 6 of `_extract_image_url`: first nested dict value that yields a
URL. -/
def extractNested : List (String × PyValue) → Option String
  | [] => none
  | (_, v) :: rest =>
    match v with
    | .VDict kvs =>
      (match extractImageUrl (.VDict kvs) with
       | some u => some u
       | none => extractNested rest)
    | _ => extractNested rest

end

/-! Python `==` on dynamically typed values, used by the `set_dp` dedup
guard and its verification matching. -/

mutual

/-- Fuel-driven model of Python `==`: booleans compare equal to the
integers 1/0, containers compare structurally, dicts key-wise (assuming the
no-duplicate-keys representation Python dicts guarantee).  Numeric
equality between ints and repr-carried floats is not modelled (no theorem
compares them). -/
def pyEqF : Nat → PyValue → PyValue → Bool
  | 0, _, _ => false
  | fuel + 1, a, b =>
    match a, b with
    | .VBool x, .VBool y => x == y
    | .VBool x, .VInt n => (if x then (1 : Int) else 0) == n
    | .VInt n, .VBool y => n == (if y then (1 : Int) else 0)
    | .VInt x, .VInt y => x == y
    | .VFloat x, .VFloat y => x == y
    | .VStr x, .VStr y => x == y
    | .VBytes x, .VBytes y => x == y
    | .VNone, .VNone => true
    | .VList xs, .VList ys => pyEqListF fuel xs ys
    | .VDict xs, .VDict ys =>
        (xs.length == ys.length) && pyEqDictLeF fuel xs ys
    | _, _ => false

/-- Itemwise equality of lists. -/
def pyEqListF : Nat → List PyValue → List PyValue → Bool
  | 0, _, _ => false
  | _ + 1, [], [] => true
  | fuel + 1, x :: xs, y :: ys => pyEqF fuel x y && pyEqListF fuel xs ys
  | _ + 1, _, _ => false

/-- Each key of the first dict maps to an equal value in the second. -/
def pyEqDictLeF : Nat → List (String × PyValue) → List (String × PyValue) → Bool
  | 0, _, _ => false
  | _ + 1, [], _ => true
  | fuel + 1, (k, v) :: rest, ys =>
    (match alookup ys k with
     | some w => pyEqF fuel v w
     | none => false) && pyEqDictLeF fuel rest ys

end

mutual

/-- Structural size of a value, used only to provide sufficient fuel. -/
def pySize : PyValue → Nat
  | .VList xs => 1 + pySizeItems xs
  | .VDict kvs => 1 + pySizePairs kvs
  | _ => 1

/-- Size of list items. -/
def pySizeItems : List PyValue → Nat
  | [] => 0
  | x :: xs => pySize x + pySizeItems xs + 1

/-- Size of dict values. -/
def pySizePairs : List (String × PyValue) → Nat
  | [] => 0
  | (_, v) :: kvs => pySize v + pySizePairs kvs + 1

end

/-- Python `==` with enough fuel for the operands. -/
def pyEq (a b : PyValue) : Bool :=
  pyEqF (pySize a + pySize b + 1) a b

/-! Hub state, effect traces, and the embedded hub operations. -/

/-- Registered entity adapter as seen by the hub: an identifier, its
`_is_momentary` attribute and whether it has a `handle_update` attribute. -/
structure Entity where
  eid : Nat
  isMomentary : Bool
  hasHandleUpdate : Bool

/-- Observable side effects of the hub operations, in program order. -/
inductive Eff where
  | warnNoConnection
  | sendSetDp (dp : String) (v : PyValue)
  | sendSetDps (dp : String) (v : PyValue)
  | statusPoll
  | entityUpdate (eid : Nat) (v : PyValue)
  | sleepMs (ms : Nat)
  | scheduleReconnect
  | saveHashes
  | fireEvent (name : String) (payload : PyValue) (fmt : String) (imageUrl : Option String)
  | writeHaState (shown : Bool)
  | cancelResetTask
  | scheduleResetTask
  | scheduleDelayedRefresh

/-- Mutable hub state relevant to `_handle_dps_update` and `set_dp`:
whether a protocol session is held, the configured button/motion DP ids,
the persisted content-hash map, the entity registration multimap and the
per-DP command dedup tracking. -/
structure HubSt where
  protocolUp : Bool
  buttonDp : String
  motionDp : String
  dpsHashes : List (String × String)
  registered : List (String × List Entity)
  tracking : List (String × PyValue × ℚ)

/-- Event name constants (`const.py`). -/
def eventButtonPress : String := "lsc_tuya_doorbell_button_press"

/-- Motion event name (`const.py`). -/
def eventMotionDetect : String := "lsc_tuya_doorbell_motion"

/-- Entities registered for a DP id (`_registered_entities` access). -/
def registeredFor (s : HubSt) (dp : String) : List Entity :=
  (alookup s.registered dp).getD []

/-- Embedding of `LscTuyaHub._handle_dps_update` (`__init__.py` 760-890).
The result is the new hub state and the effect trace; the `.error` branch
models the `TypeError` escaping from `_calculate_hash` at line 776 (which is
outside every `try` of the handler and kills the update task before any
state change or effect). -/
def handleDpsUpdate (s : HubSt) (dp : String) (value : PyValue) :
    Except String (HubSt × List Eff) :=
  match calculateHash value with
  | .error e => .error e
  | .ok currentHash =>
    let previousHash := alookup s.dpsHashes dp
    if previousHash = some currentHash then
      .ok (s, [])
    else
      let s1 := { s with dpsHashes := ainsert s.dpsHashes dp currentHash }
      let fanout := ((registeredFor s dp).filter (fun e => e.hasHandleUpdate)).map
        (fun e => Eff.entityUpdate e.eid value)
      let eventEffs :=
        if dp = s.buttonDp then
          let pd := processEventPayload value
          [Eff.fireEvent eventButtonPress pd.1 pd.2 (extractImageUrl pd.1)]
        else if dp = s.motionDp then
          let pd := processEventPayload value
          [Eff.fireEvent eventMotionDetect pd.1 pd.2 (extractImageUrl pd.1)]
        else []
      .ok (s1, Eff.saveHashes :: fanout ++ eventEffs)

/-- Device and scheduler responses consumed by one `set_dp` call:
the current time, the result of `protocol.set_dp` (`.error` models a raised
exception), the per-attempt results of `protocol.status()` during
verification, the result of the alternative `protocol.set_dps`, and the
final verification `status()`. -/
structure SetDpEnv where
  now : ℚ
  sendResult : Except String (Option PyValue)
  statusAt : Nat → Except String (Option (List (String × PyValue)))
  setDpsResult : Except String Unit
  finalStatus : Except String (Option (List (String × PyValue)))

/-- Lookup of a DP in a status response: directly, then inside a nested
`dps` dictionary (`__init__.py` 1126-1133). -/
def statusLookupDp (st : List (String × PyValue)) (dp : String) : Option PyValue :=
  match alookup st dp with
  | some v => some v
  | none =>
    match alookup st "dps" with
    | some (.VDict d) => alookup d dp
    | _ => none

/-- Value equivalence used by `set_dp` verification (`__init__.py`
1140-1153): Python `==`, plus explicit bool/int `True`/`1` and `False`/`0`
equivalence in both directions. -/
def valuesMatch (value newValue : PyValue) : Bool :=
  pyEq newValue value ||
  (match value with
   | .VBool b => (pyEq newValue (.VInt 1) && b) || (pyEq newValue (.VInt 0) && !b)
   | _ => false) ||
  ((pyEq value (.VInt 1) &&
      (match newValue with | .VBool true => true | _ => false)) ||
   (pyEq value (.VInt 0) &&
      (match newValue with | .VBool false => true | _ => false)))

/-- Verification polling loop of `set_dp` (`__init__.py` 1112-1175): up to
`fuel` (= 3) attempts; each attempt sleeps `0.5 + 0.5 * retry` seconds,
polls `status()`, and either verifies (boolean/integer equivalence counts),
stores the device-reported value as the running `actual_value` and retries,
or falls back to the requested value on missing/errored responses.
Returns (verified, actual value, effect trace). -/
def verifyLoop (env : SetDpEnv) (dp : String) (value : PyValue) :
    Nat → Nat → PyValue → Bool × PyValue × List Eff
  | 0, _, actual => (false, actual, [])
  | fuel + 1, i, _prev =>
    let effs := [Eff.sleepMs (500 + i * 500), Eff.statusPoll]
    let continueWith := fun (a : PyValue) =>
      let r := verifyLoop env dp value fuel (i + 1) a
      (r.1, r.2.1, effs ++ r.2.2)
    match env.statusAt i with
    | .error _ => continueWith value
    | .ok none => continueWith value
    | .ok (some st) =>
      if st.isEmpty then continueWith value
      else
        match statusLookupDp st dp with
        | none => continueWith value
        | some newV =>
          if valuesMatch value newV then (true, newV, effs)
          else continueWith newV

/-- Alternative-command fallback of `set_dp` (`__init__.py` 1186-1235):
send `set_dps`, wait one second, poll once more.  If the DP is found in the
response the command is considered verified whether or not the value
matches (the mismatching case is the documented accept-optimistically
policy); note the accompanying `actual_value = value` assignment at line
1229 is dead — no entity update follows it. -/
def altMethod (env : SetDpEnv) (dp : String) (value : PyValue) : Bool × List Eff :=
  match env.setDpsResult with
  | .error _ => (false, [Eff.sendSetDps dp value])
  | .ok _ =>
    let effs := [Eff.sendSetDps dp value, Eff.sleepMs 1000, Eff.statusPoll]
    match env.finalStatus with
    | .error _ => (false, effs)
    | .ok none => (false, effs)
    | .ok (some st) =>
      if st.isEmpty then (false, effs)
      else
        match statusLookupDp st dp with
        | none => (false, effs)
        | some _ => (true, effs)

/-- Substring check against the lowercased error text used at
`__init__.py` 1244. -/
def connRelatedError (msg : String) : Bool :=
  strHasSub "connection" (strLower msg) || strHasSub "timeout" (strLower msg)

/-- Embedding of `LscTuyaHub.set_dp` (`__init__.py` 1038-1247).  Returns
(result, new hub state, effect trace).  The function never raises: with no
session it warns and returns `False`; a raising `protocol.set_dp` is caught,
returns `False`, and schedules a reconnect when the error text mentions
connection loss. -/
def setDp (s : HubSt) (env : SetDpEnv) (dpId : String) (value : PyValue) :
    Bool × HubSt × List Eff :=
  if !s.protocolUp then (false, s, [Eff.warnNoConnection])
  else
    let isMomentary := (registeredFor s dpId).any (fun e => e.isMomentary)
    let dpKey := "dp_" ++ dpId
    let tr := (alookup s.tracking dpKey).getD (.VNone, 0)
    let tracking1 :=
      match alookup s.tracking dpKey with
      | some _ => s.tracking
      | none => ainsert s.tracking dpKey (.VNone, 0)
    if pyEq tr.1 value && decide (env.now - tr.2 < 5) then
      (true, { s with tracking := tracking1 }, [])
    else
      let s1 := { s with tracking := ainsert tracking1 dpKey (value, env.now) }
      match env.sendResult with
      | .error e =>
          (false, s1, [Eff.sendSetDp dpId value] ++
            (if connRelatedError e then [Eff.scheduleReconnect] else []))
      | .ok result =>
        if isMomentary then
          let upd := ((registeredFor s dpId).filter
            (fun e => e.hasHandleUpdate && !e.isMomentary)).map
              (fun e => Eff.entityUpdate e.eid value)
          (result.isSome, s1, Eff.sendSetDp dpId value :: upd ++ [Eff.sleepMs 3000])
        else
          let vr := verifyLoop env dpId value 3 0 value
          let upd := ((registeredFor s dpId).filter (fun e => e.hasHandleUpdate)).map
            (fun e => Eff.entityUpdate e.eid vr.2.1)
          if vr.1 then
            (true, s1, Eff.sendSetDp dpId value :: vr.2.2 ++ upd)
          else
            let alt := altMethod env dpId value
            (alt.1 || result.isSome, s1,
              Eff.sendSetDp dpId value :: vr.2.2 ++ upd ++ alt.2)

/-! Embedding of the momentary-switch command flow (`switch.py`). -/

/-- Mutable state of a `TuyaDoorbellSwitch`. -/
structure SwitchSt where
  isMomentary : Bool
  state : Option Bool
  virtualState : Bool
  resetPending : Bool
  lastManualUpdate : ℚ
  dpId : String

/-- Embedding of `TuyaDoorbellSwitch._reset_momentary_state` (`switch.py`
165-174): virtual state only — no device communication. -/
def resetMomentaryState (sw : SwitchSt) : SwitchSt × List Eff :=
  ({ sw with virtualState := false, resetPending := false }, [Eff.writeHaState false])

/-- Embedding of `TuyaDoorbellSwitch._schedule_momentary_reset`
(`switch.py` 232-239): sleep for the momentary duration (5 s), then reset. -/
def momentaryResetRun (sw : SwitchSt) : SwitchSt × List Eff :=
  let r := resetMomentaryState sw
  (r.1, Eff.sleepMs 5000 :: r.2)

/-- Embedding of `TuyaDoorbellSwitch.async_turn_on` (`switch.py` 176-230).
Returns (new switch state, new hub state, success, effect trace). -/
def switchTurnOn (sw : SwitchSt) (hub : HubSt) (env : SetDpEnv) :
    SwitchSt × HubSt × Bool × List Eff :=
  if sw.isMomentary then
    let cancelEffs := if sw.resetPending then [Eff.cancelResetTask] else []
    let sw1 := { sw with virtualState := true, resetPending := false }
    let r := setDp hub env sw.dpId (.VBool true)
    if r.1 then
      ({ sw1 with lastManualUpdate := env.now, resetPending := true }, r.2.1, true,
        cancelEffs ++ [Eff.writeHaState true] ++ r.2.2 ++ [Eff.scheduleResetTask])
    else
      (sw1, r.2.1, false, cancelEffs ++ [Eff.writeHaState true] ++ r.2.2)
  else
    let sw1 := { sw with state := some true, lastManualUpdate := env.now }
    let r := setDp hub env sw.dpId (.VBool true)
    if r.1 then
      (sw1, r.2.1, true, [Eff.writeHaState true] ++ r.2.2 ++ [Eff.scheduleDelayedRefresh])
    else
      (sw1, r.2.1, false, [Eff.writeHaState true] ++ r.2.2)

/-! Effect counters used by the theorems. -/

/-- Whether an effect is a fired domain event. -/
def isFireEvent : Eff → Bool
  | .fireEvent _ _ _ _ => true
  | _ => false

/-- Whether an effect is an adapter update. -/
def isEntityUpdate : Eff → Bool
  | .entityUpdate _ _ => true
  | _ => false

/-- Whether an effect is a `status()` poll. -/
def isStatusPoll : Eff → Bool
  | .statusPoll => true
  | _ => false

/-- Whether an effect sends a device command (`set_dp` or `set_dps`). -/
def isDeviceCommand : Eff → Bool
  | .sendSetDp _ _ => true
  | .sendSetDps _ _ => true
  | _ => false

/-! Reconnection backoff (`_schedule_reconnect`, `__init__.py` 892-906) and
session transition system (`_async_connect` / `_async_reconnect`). -/

/-- Base reconnect delay (`__init__.py` 324). -/
def baseReconnectDelay : ℚ := 10

/-- Maximum reconnect delay (`__init__.py` 325). -/
def maxReconnectDelay : ℚ := 300

/-- Backoff step of `_schedule_reconnect` (`__init__.py` 899-900):
`delay = min(delay * 2 * jitter, 300)` with `jitter` drawn uniformly from
`[0.8, 1.2]`. -/
def scheduleReconnectDelay (delay jitter : ℚ) : ℚ :=
  min (delay * 2 * jitter) maxReconnectDelay

/-- Preemptive doubling on rapid repeated disconnects
(`TuyaDoorbellListener.disconnected`, `__init__.py` 292-295). -/
def rapidDisconnectDelay (delay : ℚ) : ℚ :=
  min (delay * 2) maxReconnectDelay

/-- Delay reset applied on a confirmed successful connection
(`__init__.py` 431 and 925). -/
def connectSuccessDelay : ℚ := 10

/-- Session bookkeeping of the hub: the handle `_protocol` (by session id),
the ledger of sessions ever opened and ever closed, and an instrumentation
flag recording whether the body of `_async_connect` ever ran while a session
handle was still held. -/
structure ConnSt where
  protocol : Option Nat
  opened : List Nat
  closed : List Nat
  nextId : Nat
  badConnect : Bool

/-- Embedding of the session-relevant behaviour of `_async_connect`
(`__init__.py` 369-523): the body never inspects or closes an existing
`self._protocol`; on success it overwrites the handle with a fresh session,
on failure it sets the handle to `None` (line 465) and schedules a
reconnect.  The `badConnect` flag is instrumentation recording a run with a
live handle. -/
def connAttempt (ok : Bool) (s : ConnSt) : ConnSt :=
  let s := { s with badConnect := s.badConnect || s.protocol.isSome }
  if ok then
    { s with
      protocol := some s.nextId
      opened := s.nextId :: s.opened
      nextId := s.nextId + 1 }
  else
    { s with protocol := none }

/-- Embedding of the state change of `_schedule_reconnect` (`__init__.py`
895): the handle is nulled without closing the session. -/
def scheduleReconnectSt (s : ConnSt) : ConnSt :=
  { s with protocol := none }

/-- Embedding of `_async_reconnect` (`__init__.py` 908-945): a stale timer
firing while a session exists is a no-op; otherwise the connect body runs. -/
def reconnectFire (ok : Bool) (s : ConnSt) : ConnSt :=
  if s.protocol.isSome then s else connAttempt ok s

/-- External events driving the session state: a reconnect timer firing
(with the connect outcome), a protocol `disconnected()` callback, a failed
heartbeat, a connection-related `set_dp` failure (each of which runs
`_schedule_reconnect`), and integration unload (which closes the session). -/
inductive HubEvent where
  | reconnectTimer (ok : Bool)
  | disconnectSignal
  | heartbeatFailure
  | commandConnError
  | unload

/-- One step of the session transition system. -/
def hubStep (s : ConnSt) (e : HubEvent) : ConnSt :=
  match e with
  | .reconnectTimer ok => reconnectFire ok s
  | .disconnectSignal => scheduleReconnectSt s
  | .heartbeatFailure => scheduleReconnectSt s
  | .commandConnError => scheduleReconnectSt s
  | .unload =>
    match s.protocol with
    | some i => { s with protocol := none, closed := i :: s.closed }
    | none => s

/-- Initial hub session state. -/
def connInit : ConnSt :=
  { protocol := none, opened := [], closed := [], nextId := 0, badConnect := false }

/-- A full run: `async_setup` performs the initial `_async_connect` from the
fresh state, then the event stream drives the system. -/
def hubRun (setupOk : Bool) (es : List HubEvent) : ConnSt :=
  es.foldl hubStep (connAttempt setupOk connInit)

/-- Sessions opened and never closed. -/
def liveSessions (s : ConnSt) : List Nat :=
  s.opened.filter (fun i => decide (¬ i ∈ s.closed))

/-! Helper lemmas shared by the claim theorems. -/

theorem alookup_ainsert {α : Type} (l : List (String × α)) (k : String) (v : α) :
    alookup (ainsert l k v) k = some v := by
  induction l with
  | nil => simp [ainsert, alookup]
  | cons kv rest ih =>
      obtain ⟨k0, v0⟩ := kv
      by_cases h : k0 = k
      · simp [ainsert, alookup, h]
      · simp [ainsert, alookup, h, ih]

theorem countP_map_entity (l : List Entity) (v : PyValue) (p : Eff → Bool)
    (hp : ∀ e : Entity, p (Eff.entityUpdate e.eid v) = false) :
    (l.map (fun e => Eff.entityUpdate e.eid v)).countP p = 0 := by
  induction l with
  | nil => simp
  | cons e rest ih => simp [List.countP_cons, hp, ih]

theorem listHasPrefixCh_map (f : Char → Char) (pat : List Char) :
    ∀ hay : List Char, pat.map f = pat → listHasPrefixCh pat hay = true →
      listHasPrefixCh pat (hay.map f) = true := by
  induction pat with
  | nil => intro hay _ _; simp [listHasPrefixCh]
  | cons p ps ih =>
      intro hay hfix h
      cases hay with
      | nil => simp [listHasPrefixCh] at h
      | cons c cs =>
          simp only [listHasPrefixCh, Bool.and_eq_true, beq_iff_eq] at h
          obtain ⟨hpc, hrest⟩ := h
          simp only [List.map_cons, List.cons.injEq] at hfix
          obtain ⟨hfp, hfps⟩ := hfix
          simp only [List.map_cons, listHasPrefixCh, Bool.and_eq_true, beq_iff_eq]
          exact ⟨by rw [← hpc, hfp], ih cs hfps hrest⟩

theorem listHasSub_map (f : Char → Char) (pat : List Char) :
    ∀ hay : List Char, pat.map f = pat → listHasSub pat hay = true →
      listHasSub pat (hay.map f) = true := by
  intro hay
  induction hay with
  | nil => intro hfix h; simpa [listHasSub] using h
  | cons c cs ih =>
      intro hfix h
      simp only [listHasSub, Bool.or_eq_true] at h
      rcases h with h | h
      · have := listHasPrefixCh_map f pat (c :: cs) hfix h
        simp only [List.map_cons] at this ⊢
        simp [listHasSub, this]
      · have := ih hfix h
        simp only [List.map_cons]
        simp [listHasSub, this]

theorem strHasSub_strLower (pat msg : String)
    (hfix : pat.data.map Char.toLower = pat.data)
    (h : strHasSub pat msg = true) :
    strHasSub pat (strLower msg) = true := by
  unfold strHasSub strLower at *
  exact listHasSub_map Char.toLower pat.data msg.data hfix h

/-! Claim C3: reconnection backoff. -/

/-- C3 counterexample: the claim asserts the next delay always lies in
`[1.6 * d, 2.4 * d]`, but once the delay has reached the 300-second cap a
further failure (here with jitter 1, inside `[0.8, 1.2]`) produces
`min(300 * 2 * 1, 300) = 300`, which is below `1.6 * 300 = 480`. -/
theorem C3_backoff_counterexample :
    ((8 : ℚ)/10 ≤ 1 ∧ (1 : ℚ) ≤ 12/10) ∧
    scheduleReconnectDelay 300 1 = 300 ∧
    scheduleReconnectDelay 300 1 < (16/10) * 300 := by
  refine ⟨⟨by norm_num, by norm_num⟩, ?_, ?_⟩ <;>
    · rw [scheduleReconnectDelay, maxReconnectDelay, min_def]
      norm_num

/-- C3 (amended): each backoff step sets the delay to
`min(d * 2 * jitter, 300)` with jitter in `[0.8, 1.2]`, hence the new delay
lies in `[min(1.6 * d, 300), min(2.4 * d, 300)]`; the delay stays inside
`[10, 300]` whenever the previous delay did, and a confirmed successful
connection resets the delay to the base value 10. -/
theorem C3_backoff_bounds (d j : ℚ)
    (hd0 : 10 ≤ d) (hdM : d ≤ 300) (hj1 : 8/10 ≤ j) (hj2 : j ≤ 12/10) :
    min ((16/10) * d) 300 ≤ scheduleReconnectDelay d j ∧
    scheduleReconnectDelay d j ≤ min ((24/10) * d) 300 ∧
    10 ≤ scheduleReconnectDelay d j ∧
    scheduleReconnectDelay d j ≤ 300 ∧
    connectSuccessDelay = baseReconnectDelay := by
  have hd0' : (0 : ℚ) ≤ d := by linarith
  have hlow : (16/10) * d ≤ d * 2 * j := by nlinarith
  have hhigh : d * 2 * j ≤ (24/10) * d := by nlinarith
  have h16 : (10 : ℚ) ≤ (16/10) * d := by nlinarith
  refine ⟨?_, ?_, ?_, ?_, rfl⟩
  · exact min_le_min hlow (le_refl _)
  · exact min_le_min hhigh (le_refl _)
  · exact le_min (by linarith) (by norm_num [maxReconnectDelay])
  · exact min_le_right _ _

/-- C3 witness: the amended bounds at `d = 10`, `jitter = 1`. -/
theorem C3_backoff_bounds_witness :
    min ((16/10) * 10) 300 ≤ scheduleReconnectDelay 10 1 ∧
    scheduleReconnectDelay 10 1 ≤ min ((24/10) * 10) 300 ∧
    (10 : ℚ) ≤ scheduleReconnectDelay 10 1 ∧
    scheduleReconnectDelay 10 1 ≤ 300 ∧
    connectSuccessDelay = baseReconnectDelay :=
  C3_backoff_bounds 10 1 (by norm_num) (by norm_num) (by norm_num) (by norm_num)

/-! Claim C2: at most one live session. -/

/-- Demo state for C2: a hub currently holding an open session (id 0). -/
def connDemo : ConnSt :=
  { protocol := some 0, opened := [0], closed := [], nextId := 1, badConnect := false }

/-- C2 counterexample: the body of `_async_connect`, run while a session
exists, neither no-ops nor closes the existing session before replacing it —
it overwrites the handle, leaving both the old and the new session
non-closed. -/
theorem C2_connect_counterexample :
    connAttempt true connDemo ≠ connDemo ∧
    (connAttempt true connDemo).protocol = some 1 ∧
    liveSessions (connAttempt true connDemo) = [1, 0] := by
  refine ⟨?_, rfl, rfl⟩
  intro h
  have := congrArg ConnSt.protocol h
  simp [connAttempt, connDemo] at this

/-- C2 (amended): `_async_connect` itself performs no guard or close of an
existing session, but a reconnect timer firing while a session exists is a
no-op, and in every run of the session transition system (setup connect from
the fresh state, then disconnects/heartbeat failures/command errors/timers/
unload) the connect body only ever executes with a null handle. -/
theorem C2_session_guard :
    (∀ (ok : Bool) (s : ConnSt), s.protocol.isSome = true → reconnectFire ok s = s) ∧
    (∀ (setupOk : Bool) (es : List HubEvent), (hubRun setupOk es).badConnect = false) := by
  constructor
  · intro ok s h
    simp [reconnectFire, h]
  · intro setupOk es
    have key : ∀ (l : List HubEvent) (s : ConnSt), s.badConnect = false →
        (l.foldl hubStep s).badConnect = false := by
      intro l
      induction l with
      | nil => intro s h; simpa using h
      | cons e rest ih =>
          intro s h
          simp only [List.foldl_cons]
          apply ih
          cases e with
          | reconnectTimer ok =>
              by_cases hp : s.protocol.isSome
              · simp [hubStep, reconnectFire, hp, h]
              · simp only [Bool.not_eq_true] at hp
                cases ok <;> simp [hubStep, reconnectFire, connAttempt, hp, h]
          | disconnectSignal => simpa [hubStep, scheduleReconnectSt] using h
          | heartbeatFailure => simpa [hubStep, scheduleReconnectSt] using h
          | commandConnError => simpa [hubStep, scheduleReconnectSt] using h
          | unload =>
              cases hp : s.protocol <;> simp [hubStep, hp, h]
    apply key
    cases setupOk <;> simp [connAttempt, connInit]

/-- C2 witness: the reconnect guard is a no-op on the demo state holding a
session, and a concrete run (setup, disconnect, reconnect success, rapid
disconnect, failed reconnect, successful reconnect) never runs the connect
body with a live handle. -/
theorem C2_session_guard_witness :
    connDemo.protocol.isSome = true ∧
    reconnectFire true connDemo = connDemo ∧
    (hubRun true [HubEvent.disconnectSignal, HubEvent.reconnectTimer true,
      HubEvent.disconnectSignal, HubEvent.reconnectTimer false,
      HubEvent.reconnectTimer true]).badConnect = false :=
  ⟨rfl, C2_session_guard.1 true connDemo rfl,
    C2_session_guard.2 true [HubEvent.disconnectSignal, HubEvent.reconnectTimer true,
      HubEvent.disconnectSignal, HubEvent.reconnectTimer false,
      HubEvent.reconnectTimer true]⟩

/-! Claim C5: content-hash stability. -/

/-- C5 counterexample: the claim asserts differing values always hash
differently, but the hash is taken of the canonical string form, and
`str(1)` and `str("1")` are both the string `1`: the integer 1 and the
string `1` are different values with equal hashes (no SHA-256 collision
involved). -/
theorem C5_hash_counterexample :
    calculateHash (.VInt 1) = calculateHash (.VStr "1") ∧
    PyValue.VInt 1 ≠ PyValue.VStr "1" :=
  ⟨rfl, fun h => PyValue.noConfusion h⟩

/-- C5 (amended): the hash is a function of the canonical string form —
sorted-key JSON for dicts, `str()` otherwise.  Reordering the entries of a
dict (with the distinct keys Python dicts guarantee) never changes the
hash; but hash inequality of differing values only holds up to equality of
the canonical string forms (e.g. `1` and `"1"` collide) and SHA-256
collisions. -/
theorem C5_hash_stability {kvs kvs' : List (String × PyValue)}
    (hp : kvs.Perm kvs') (hnd : (kvs.map Prod.fst).Nodup) :
    calculateHash (.VDict kvs) = calculateHash (.VDict kvs') ∧
    calculateHash (.VInt 1) = calculateHash (.VStr "1") :=
  ⟨calculateHash_dict_perm hp hnd, rfl⟩

/-- C5 witness: reordering a concrete two-entry dict leaves the hash
unchanged. -/
theorem C5_hash_stability_witness :
    ([("b", PyValue.VInt 2), ("a", PyValue.VInt 1)].Perm
      [("a", PyValue.VInt 1), ("b", PyValue.VInt 2)]) ∧
    (([("b", PyValue.VInt 2), ("a", PyValue.VInt 1)].map Prod.fst).Nodup) ∧
    calculateHash (.VDict [("b", .VInt 2), ("a", .VInt 1)]) =
      calculateHash (.VDict [("a", .VInt 1), ("b", .VInt 2)]) :=
  ⟨List.Perm.swap _ _ _, by simp,
    (C5_hash_stability (List.Perm.swap _ _ _) (by simp)).1⟩

/-! Claim C7: five-second command dedup guard. -/

/-- C7: while a session exists, a `set_dp` whose `(dp, value)` pair equals
(by Python `==`) the tracked last command issued less than 5 seconds earlier
returns `True` without sending anything, changing nothing. -/
theorem C7_setDp_dedup (s : HubSt) (env : SetDpEnv) (dp : String)
    (v lastV : PyValue) (t : ℚ)
    (hp : s.protocolUp = true)
    (htr : alookup s.tracking ("dp_" ++ dp) = some (lastV, t))
    (heq : pyEq lastV v = true)
    (htime : env.now - t < 5) :
    setDp s env dp v = (true, s, []) := by
  obtain ⟨p, bdp, mdp, dh, reg, trk⟩ := s
  simp only at hp htr
  subst hp
  unfold setDp
  simp [htr, heq, htime]

/-- Hub state of the C7 witness: DP 1 was last commanded to `True` at
time 98. -/
def c7St : HubSt where
  protocolUp := true
  buttonDp := "185"
  motionDp := "115"
  dpsHashes := []
  registered := []
  tracking := [("dp_1", (PyValue.VBool true, (98 : ℚ)))]

/-- Environment of the C7 witness: the repeat arrives at time 100. -/
def c7Env : SetDpEnv where
  now := 100
  sendResult := .ok none
  statusAt := fun _ => .ok none
  setDpsResult := .ok ()
  finalStatus := .ok none

/-- C7 witness: a concrete repeat of `(dp 1, True)` two seconds after the
first command is a silent no-op success. -/
theorem C7_setDp_dedup_witness :
    c7St.protocolUp = true ∧
    alookup c7St.tracking ("dp_" ++ "1") = some (PyValue.VBool true, (98 : ℚ)) ∧
    pyEq (PyValue.VBool true) (.VBool true) = true ∧
    (c7Env.now - (98 : ℚ) < 5) ∧
    setDp c7St c7Env "1" (.VBool true) = (true, c7St, []) :=
  ⟨rfl, by simp [c7St, alookup], rfl, by norm_num [c7Env],
    C7_setDp_dedup c7St c7Env "1" (.VBool true) (.VBool true) 98 rfl
      (by simp [c7St, alookup]) rfl (by norm_num [c7Env])⟩

/-! Claim C9: `set_dp` error handling. -/

/-- The five-second dedup condition of `set_dp`, as a named predicate. -/
def dedupHit (s : HubSt) (env : SetDpEnv) (dp : String) (v : PyValue) : Bool :=
  let tr := (alookup s.tracking ("dp_" ++ dp)).getD (.VNone, 0)
  pyEq tr.1 v && decide (env.now - tr.2 < 5)

/-- C9: `set_dp` never raises to its caller.  With no session it returns
`False` after a logged warning and performs nothing else; when the command
send raises, it returns `False`, and it additionally schedules a reconnect
exactly when the lowercased error text contains `connection` or `timeout` —
in particular whenever the error text itself contains either word. -/
theorem C9_setDp_error_handling :
    (∀ (s : HubSt) (env : SetDpEnv) (dp : String) (v : PyValue),
        s.protocolUp = false →
        setDp s env dp v = (false, s, [Eff.warnNoConnection])) ∧
    (∀ (s : HubSt) (env : SetDpEnv) (dp : String) (v : PyValue) (msg : String),
        s.protocolUp = true →
        dedupHit s env dp v = false →
        env.sendResult = .error msg →
        (setDp s env dp v).1 = false ∧
        (setDp s env dp v).2.2 =
          [Eff.sendSetDp dp v] ++
            (if connRelatedError msg then [Eff.scheduleReconnect] else []) ∧
        ((strHasSub "connection" msg || strHasSub "timeout" msg) = true →
          Eff.scheduleReconnect ∈ (setDp s env dp v).2.2)) := by
  constructor
  · intro s env dp v h
    simp [setDp, h]
  · intro s env dp v msg hp hmiss hsend
    simp only [dedupHit] at hmiss
    have hconn : (strHasSub "connection" msg || strHasSub "timeout" msg) = true →
        connRelatedError msg = true := by
      intro h
      rcases Bool.or_eq_true_iff.mp h with h1 | h1
      · unfold connRelatedError
        rw [strHasSub_strLower ("connection") msg (by decide) h1]
        rfl
      · unfold connRelatedError
        rw [strHasSub_strLower ("timeout") msg (by decide) h1]
        simp
    refine ⟨?_, ?_, ?_⟩
    · simp [setDp, hp, hsend, hmiss]
    · simp [setDp, hp, hsend, hmiss]
    · intro h
      simp [setDp, hp, hsend, hmiss, hconn h]

/-- Hub state of the C9 witness without a session. -/
def c9StDown : HubSt where
  protocolUp := false
  buttonDp := "185"
  motionDp := "115"
  dpsHashes := []
  registered := []
  tracking := []

/-- Hub state of the C9 witness with a session. -/
def c9StUp : HubSt where
  protocolUp := true
  buttonDp := "185"
  motionDp := "115"
  dpsHashes := []
  registered := []
  tracking := []

/-- Environment of the C9 witness: the command send raises
`connection reset`. -/
def c9Env : SetDpEnv where
  now := 50
  sendResult := .error ("connection reset")
  statusAt := fun _ => .ok none
  setDpsResult := .ok ()
  finalStatus := .ok none

/-- C9 witness: without a session the call warns and returns `False`; with a
session and a raising send whose text contains `connection`, it returns
`False` and schedules a reconnect. -/
theorem C9_setDp_error_handling_witness :
    (c9StDown.protocolUp = false ∧
      setDp c9StDown c9Env "1" (.VBool true) = (false, c9StDown, [Eff.warnNoConnection])) ∧
    (c9StUp.protocolUp = true ∧
      dedupHit c9StUp c9Env "1" (.VBool true) = false ∧
      c9Env.sendResult = .error ("connection reset") ∧
      (setDp c9StUp c9Env "1" (.VBool true)).1 = false ∧
      (strHasSub "connection" ("connection reset")
        || strHasSub "timeout" ("connection reset")) = true ∧
      Eff.scheduleReconnect ∈ (setDp c9StUp c9Env "1" (.VBool true)).2.2) :=
  ⟨⟨rfl, C9_setDp_error_handling.1 c9StDown c9Env "1" (.VBool true) rfl⟩,
    rfl, rfl, rfl,
    (C9_setDp_error_handling.2 c9StUp c9Env "1" (.VBool true) ("connection reset")
      rfl rfl rfl).1,
    by decide,
    (C9_setDp_error_handling.2 c9StUp c9Env "1" (.VBool true) ("connection reset")
      rfl rfl rfl).2.2 (by decide)⟩

/-! Claim C1: idempotence of the datapoint-update handler. -/

/-- Hub state of the C1 counterexample: DP `5` is the configured button DP. -/
def c1BadSt : HubSt where
  protocolUp := true
  buttonDp := "5"
  motionDp := "115"
  dpsHashes := []
  registered := []
  tracking := []

/-- C1 counterexample: the claim quantifies over every value `v`, but for a
dict containing bytes the hash computation at line 776 raises `TypeError`
(outside every `try` of the handler), so both consecutive calls die before
storing or firing anything — the associated button event fires zero times,
not once. -/
theorem C1_handler_counterexample :
    c1BadSt.buttonDp = "5" ∧
    handleDpsUpdate c1BadSt "5" (.VDict [("k", .VBytes [0])]) =
      .error ("TypeError: Object of type bytes is not JSON serializable") :=
  ⟨rfl, rfl⟩

/-- C1 (amended): for every DP id and every value whose hash computation
succeeds (raw value JSON-serialisable when it is a map/list) and whose hash
differs from the stored one, the first handler call stores the hash, fires
the associated domain event exactly once (when the DP is the button or
motion mapping; zero times otherwise), fans out to every registered adapter
exactly once, and the second consecutive call with the same value finds the
stored hash equal and returns with no state change and no effects. -/
theorem C1_handler_idempotent (s : HubSt) (d : String) (v : PyValue) (h : String)
    (hc : calculateHash v = .ok h)
    (hf : alookup s.dpsHashes d ≠ some h) :
    ∃ s1 e1,
      handleDpsUpdate s d v = .ok (s1, e1) ∧
      e1.countP isFireEvent = (if d = s.buttonDp ∨ d = s.motionDp then 1 else 0) ∧
      e1.countP isEntityUpdate =
        ((registeredFor s d).filter (fun e => e.hasHandleUpdate)).length ∧
      handleDpsUpdate s1 d v = .ok (s1, []) := by
  refine ⟨{ s with dpsHashes := ainsert s.dpsHashes d h },
    Eff.saveHashes ::
      ((registeredFor s d).filter (fun e => e.hasHandleUpdate)).map
        (fun e => Eff.entityUpdate e.eid v) ++
      (if d = s.buttonDp then
        [Eff.fireEvent eventButtonPress (processEventPayload v).1
          (processEventPayload v).2 (extractImageUrl (processEventPayload v).1)]
       else if d = s.motionDp then
        [Eff.fireEvent eventMotionDetect (processEventPayload v).1
          (processEventPayload v).2 (extractImageUrl (processEventPayload v).1)]
       else []), ?_, ?_, ?_, ?_⟩
  · unfold handleDpsUpdate
    simp only [hc]
    rw [if_neg hf]
  · simp only [List.countP_cons, List.countP_append, isFireEvent, Bool.false_eq_true,
      if_false, Nat.add_zero, Nat.zero_add]
    rw [countP_map_entity _ _ _ (fun _ => rfl)]
    by_cases hb : d = s.buttonDp
    · simp [hb, List.countP_cons, isFireEvent]
    · by_cases hm : d = s.motionDp
      · simp only [hb, hm]
        by_cases h2 : s.motionDp = s.buttonDp <;>
          simp [h2, List.countP_cons, isFireEvent]
      · simp [hb, hm]
  · simp only [List.countP_cons, List.countP_append, isEntityUpdate, Bool.false_eq_true,
      if_false, Nat.add_zero, Nat.zero_add]
    have hmap : ∀ l : List Entity,
        ((l.map (fun e => Eff.entityUpdate e.eid v)).countP isEntityUpdate) = l.length := by
      intro l
      induction l with
      | nil => simp
      | cons e rest ih => simp [List.countP_cons, isEntityUpdate, ih]
    by_cases hb : d = s.buttonDp
    · simp [hb, hmap, List.countP_cons, isEntityUpdate]
    · by_cases hm : d = s.motionDp
      · simp only [hb, hm]
        by_cases h2 : s.motionDp = s.buttonDp <;>
          simp [h2, hmap, List.countP_cons, isEntityUpdate]
      · simp [hb, hm, hmap]
  · unfold handleDpsUpdate
    simp only [hc, alookup_ainsert]
    simp only [if_true]

/-- Hub state of the C1 witness: DP 185 is the button mapping and has one
registered adapter. -/
def c1wSt : HubSt where
  protocolUp := true
  buttonDp := "185"
  motionDp := "115"
  dpsHashes := []
  registered := [("185", [{ eid := 7, isMomentary := false, hasHandleUpdate := true }])]
  tracking := []

/-- C1 witness: a fresh boolean update on the button DP fires once, updates
the one registered adapter once, and the repeated call is dropped by the
hash check with no effects. -/
theorem C1_handler_idempotent_witness :
    calculateHash (.VBool true) = .ok (sha256hex ("True")) ∧
    alookup c1wSt.dpsHashes "185" ≠ some (sha256hex ("True")) ∧
    (∃ s1 e1,
      handleDpsUpdate c1wSt "185" (.VBool true) = .ok (s1, e1) ∧
      e1.countP isFireEvent =
        (if "185" = c1wSt.buttonDp ∨ "185" = c1wSt.motionDp then 1 else 0) ∧
      e1.countP isEntityUpdate =
        ((registeredFor c1wSt "185").filter (fun e => e.hasHandleUpdate)).length ∧
      handleDpsUpdate s1 "185" (.VBool true) = .ok (s1, [])) :=
  ⟨rfl, by simp [c1wSt, alookup],
    C1_handler_idempotent c1wSt "185" (.VBool true) (sha256hex ("True")) rfl
      (by simp [c1wSt, alookup])⟩

/-! Claims C4 and C10: decoder totality and the unreachable URL-safe tag. -/

/-- The URL-safe base64 attempt always fails: the `%`-formatting of the
padding string raises before any decoding happens. -/
theorem tryUrlsafe_none (s : String) : tryUrlsafeB64Json s = none := by
  unfold tryUrlsafeB64Json
  by_cases h : (String.mk (List.replicate (4 - s.length % 4) (Char.ofNat 61))).data.any
      (fun c => c.toNat = 37)
  · simp [pyStrFormatMod, h]
  · simp [pyStrFormatMod, h]

/-- The strategy tags reachable for a string input. -/
theorem processEventPayload_str_tag (s : String) :
    (processEventPayload (.VStr s)).2 ∈
      ["base64_json", "padded_base64_json", "direct_json", "fixed_json_quotes",
       "extracted_json", "string"] := by
  cases h1 : tryB64Json b64decodeStd s with
  | some p => simp [processEventPayload, h1]
  | none =>
    cases h2 : tryB64Json b64decodeStd (padB64 s) with
    | some p => simp [processEventPayload, h1, h2]
    | none =>
      cases h3 : jsonLoads s with
      | some p => simp [processEventPayload, h1, h2, tryUrlsafe_none, h3]
      | none =>
        cases h4 : jsonLoads (fixQuotes s) with
        | some p => simp [processEventPayload, h1, h2, tryUrlsafe_none, h3, h4]
        | none =>
          cases h5 : extractJsonSub s.data with
          | none => simp [processEventPayload, h1, h2, tryUrlsafe_none, h3, h4, h5, stringWrap]
          | some sub =>
            cases h6 : jsonLoads (String.mk sub) with
            | some p =>
                simp [processEventPayload, h1, h2, tryUrlsafe_none, h3, h4, h5, h6]
            | none =>
                simp [processEventPayload, h1, h2, tryUrlsafe_none, h3, h4, h5, h6, stringWrap]

/-- The full set of strategy tags of the decoder. -/
def decodeTags : List String :=
  ["direct_dict", "base64_json", "padded_base64_json", "urlsafe_base64_json",
   "direct_json", "fixed_json_quotes", "extracted_json", "bytes_utf8_json",
   "bytes_utf8", "bytes_hex", "boolean", "numeric", "string", "fallback"]

/-- C4: the decoder is total — it is a function on the whole value domain
(every raising library call is modelled as a fallible step whose failure
falls through to the next strategy), and for every input it returns a
payload together with one of the defined strategy tags, ending in the
wrappers around the raw value. -/
theorem C4_decoder_total (v : PyValue) :
    (processEventPayload v).2 ∈ decodeTags := by
  cases v with
  | VDict kvs => simp [processEventPayload, decodeTags]
  | VBool b => simp [processEventPayload, decodeTags]
  | VInt n => simp [processEventPayload, decodeTags]
  | VFloat r => simp [processEventPayload, decodeTags]
  | VNone => simp [processEventPayload, decodeTags]
  | VList xs => simp [processEventPayload, stringWrap, decodeTags]
  | VBytes bs =>
    cases h1 : utf8Decode bs with
    | none => simp [processEventPayload, h1, decodeTags]
    | some txt =>
      cases h2 : jsonLoads txt with
      | some p => simp [processEventPayload, h1, h2, decodeTags]
      | none => simp [processEventPayload, h1, h2, decodeTags]
  | VStr s =>
    have h := processEventPayload_str_tag s
    simp only [List.mem_cons, List.not_mem_nil, or_false] at h
    simp only [decodeTags, List.mem_cons, List.not_mem_nil, or_false]
    tauto

/-- C10: for every string input the decoder never returns the
`urlsafe_base64_json` strategy: the URL-safe branch raises in its padding
expression before decoding, so every string falls through to the later
strategies. -/
theorem C10_urlsafe_tag_unreachable (s : String) :
    (processEventPayload (.VStr s)).2 ≠ "urlsafe_base64_json" := by
  have h := processEventPayload_str_tag s
  simp only [List.mem_cons, List.not_mem_nil, or_false] at h
  rcases h with h | h | h | h | h | h <;> rw [h] <;> decide

/-! Claim C8: unverified non-momentary command flow. -/

/-- Hub state of the C8 scenario: non-momentary DP 1 with one registered
adapter. -/
def c8St : HubSt where
  protocolUp := true
  buttonDp := "185"
  motionDp := "115"
  dpsHashes := []
  registered := [("1", [{ eid := 7, isMomentary := false, hasHandleUpdate := true }])]
  tracking := []

/-- Environment of the C8 scenario: the command is acknowledged but every
status poll — the three verification attempts and the final poll after the
`set_dps` fallback — reports the old value `False` instead of the requested
`True`. -/
def c8Env : SetDpEnv where
  now := 100
  sendResult := .ok (some (.VBool true))
  statusAt := fun _ => .ok (some [("1", .VBool false)])
  setDpsResult := .ok ()
  finalStatus := .ok (some [("1", .VBool false)])

/-- C8: with verification never matching, `set_dp` retries three times,
falls back to `set_dps` once, polls once more, and accepts the command as
sent (returns `True`) — but the registered adapter is updated with the
device-reported value `False` (before the fallback), and no update with the
user-requested value `True` ever happens: the `actual_value = value`
override at line 1229 is dead code, contradicting the claimed (and
comment-documented) forcing of the UI to the requested value. -/
theorem C8_unverified_entity_value :
    (setDp c8St c8Env "1" (.VBool true)).1 = true ∧
    (setDp c8St c8Env "1" (.VBool true)).2.2 =
      [Eff.sendSetDp ("1") (.VBool true), Eff.sleepMs 500, Eff.statusPoll,
       Eff.sleepMs 1000, Eff.statusPoll, Eff.sleepMs 1500, Eff.statusPoll,
       Eff.entityUpdate 7 (.VBool false),
       Eff.sendSetDps ("1") (.VBool true), Eff.sleepMs 1000, Eff.statusPoll] ∧
    Eff.entityUpdate 7 (.VBool false) ∈ (setDp c8St c8Env "1" (.VBool true)).2.2 ∧
    Eff.entityUpdate 7 (.VBool true) ∉ (setDp c8St c8Env "1" (.VBool true)).2.2 := by
  have htrace : (setDp c8St c8Env "1" (.VBool true)).2.2 =
      [Eff.sendSetDp ("1") (.VBool true), Eff.sleepMs 500, Eff.statusPoll,
       Eff.sleepMs 1000, Eff.statusPoll, Eff.sleepMs 1500, Eff.statusPoll,
       Eff.entityUpdate 7 (.VBool false),
       Eff.sendSetDps ("1") (.VBool true), Eff.sleepMs 1000, Eff.statusPoll] := by rfl
  refine ⟨rfl, htrace, ?_, ?_⟩
  · rw [htrace]; simp
  · rw [htrace]; simp

/-! Claim C6: momentary command flow. -/

/-- C6: turning on a momentary switch over a live session (with no recent
duplicate command and an acknowledged send) succeeds; the switch's virtual
state shows `True` and the Home-Assistant state write precedes the single
device command; no status poll is performed; every registered non-momentary
adapter with a `handle_update` is updated with the requested value `True`;
a revert task is scheduled, and running it only reverts the virtual state to
`False` and writes it — it sends no device command. -/
theorem C6_momentary_flow (sw : SwitchSt) (hub : HubSt) (env : SetDpEnv) (r : PyValue)
    (hm : sw.isMomentary = true)
    (hp : hub.protocolUp = true)
    (hreg : (registeredFor hub sw.dpId).any (fun e => e.isMomentary) = true)
    (htr : alookup hub.tracking ("dp_" ++ sw.dpId) = none)
    (hsend : env.sendResult = .ok (some r)) :
    (switchTurnOn sw hub env).2.2.1 = true ∧
    (switchTurnOn sw hub env).1.virtualState = true ∧
    (switchTurnOn sw hub env).1.resetPending = true ∧
    (switchTurnOn sw hub env).2.2.2 =
      (if sw.resetPending then [Eff.cancelResetTask] else []) ++
        Eff.writeHaState true :: Eff.sendSetDp sw.dpId (.VBool true) ::
        ((registeredFor hub sw.dpId).filter
            (fun e => e.hasHandleUpdate && !e.isMomentary)).map
          (fun e => Eff.entityUpdate e.eid (.VBool true)) ++
        [Eff.sleepMs 3000, Eff.scheduleResetTask] ∧
    (switchTurnOn sw hub env).2.2.2.countP isStatusPoll = 0 ∧
    (switchTurnOn sw hub env).2.2.2.countP isDeviceCommand = 1 ∧
    (∀ e ∈ registeredFor hub sw.dpId, e.hasHandleUpdate = true → e.isMomentary = false →
      Eff.entityUpdate e.eid (.VBool true) ∈ (switchTurnOn sw hub env).2.2.2) ∧
    (momentaryResetRun (switchTurnOn sw hub env).1).1.virtualState = false ∧
    (momentaryResetRun (switchTurnOn sw hub env).1).2.countP isDeviceCommand = 0 := by
  have hdedup : pyEq PyValue.VNone (.VBool true) = false := rfl
  have hres : (setDp hub env sw.dpId (.VBool true)).1 = true := by
    unfold setDp
    simp [hp, htr, hsend, hdedup, hreg]
  have heffs : (setDp hub env sw.dpId (.VBool true)).2.2 =
      Eff.sendSetDp sw.dpId (.VBool true) ::
        ((registeredFor hub sw.dpId).filter
            (fun e => e.hasHandleUpdate && !e.isMomentary)).map
          (fun e => Eff.entityUpdate e.eid (.VBool true)) ++ [Eff.sleepMs 3000] := by
    unfold setDp
    simp [hp, htr, hsend, hdedup, hreg]
  have hout2 : (switchTurnOn sw hub env).2.2.1 = true := by
    unfold switchTurnOn
    simp [hm, hres]
  have hsw : (switchTurnOn sw hub env).1 =
      { sw with
        virtualState := true
        resetPending := true
        lastManualUpdate := env.now } := by
    unfold switchTurnOn
    simp [hm, hres]
  have htrace : (switchTurnOn sw hub env).2.2.2 =
      (if sw.resetPending then [Eff.cancelResetTask] else []) ++
        Eff.writeHaState true :: Eff.sendSetDp sw.dpId (.VBool true) ::
        ((registeredFor hub sw.dpId).filter
            (fun e => e.hasHandleUpdate && !e.isMomentary)).map
          (fun e => Eff.entityUpdate e.eid (.VBool true)) ++
        [Eff.sleepMs 3000, Eff.scheduleResetTask] := by
    unfold switchTurnOn
    simp [hm, hres, heffs]
  refine ⟨hout2, by rw [hsw], by rw [hsw], htrace, ?_, ?_, ?_, ?_, ?_⟩
  · rw [htrace]
    by_cases hc : sw.resetPending <;>
      simp [hc, List.countP_cons, List.countP_append, isStatusPoll,
        (fun l v => countP_map_entity l v isStatusPoll (fun _ => rfl))]
  · rw [htrace]
    by_cases hc : sw.resetPending <;>
      simp [hc, List.countP_cons, List.countP_append, isDeviceCommand,
        (fun l v => countP_map_entity l v isDeviceCommand (fun _ => rfl))]
  · intro e he hh hmom
    rw [htrace]
    have hmem : Eff.entityUpdate e.eid (.VBool true) ∈
        ((registeredFor hub sw.dpId).filter
            (fun e => e.hasHandleUpdate && !e.isMomentary)).map
          (fun e => Eff.entityUpdate e.eid (.VBool true)) :=
      List.mem_map_of_mem _ (List.mem_filter.mpr ⟨he, by simp [hh, hmom]⟩)
    simp only [List.mem_append, List.mem_cons]
    tauto
  · rw [hsw]
    rfl
  · rw [hsw]
    rfl

/-- Switch state of the C6 witness: a momentary switch for DP 9. -/
def c6Sw : SwitchSt where
  isMomentary := true
  state := some false
  virtualState := false
  resetPending := false
  lastManualUpdate := 0
  dpId := "9"

/-- Hub state of the C6 witness: DP 9 has a momentary adapter (the switch)
and one non-momentary adapter. -/
def c6Hub : HubSt where
  protocolUp := true
  buttonDp := "185"
  motionDp := "115"
  dpsHashes := []
  registered := [("9", [{ eid := 3, isMomentary := true, hasHandleUpdate := true },
                        { eid := 4, isMomentary := false, hasHandleUpdate := true }])]
  tracking := []

/-- Environment of the C6 witness: the device acknowledges the command. -/
def c6Env : SetDpEnv where
  now := 42
  sendResult := .ok (some (.VBool true))
  statusAt := fun _ => .ok none
  setDpsResult := .ok ()
  finalStatus := .ok none

/-- C6 witness: the momentary flow at a concrete switch, hub and
environment. -/
theorem C6_momentary_flow_witness :
    c6Sw.isMomentary = true ∧
    c6Hub.protocolUp = true ∧
    (registeredFor c6Hub c6Sw.dpId).any (fun e => e.isMomentary) = true ∧
    alookup c6Hub.tracking ("dp_" ++ c6Sw.dpId) = none ∧
    c6Env.sendResult = .ok (some (.VBool true)) ∧
    ((switchTurnOn c6Sw c6Hub c6Env).2.2.1 = true ∧
      (switchTurnOn c6Sw c6Hub c6Env).1.virtualState = true ∧
      (switchTurnOn c6Sw c6Hub c6Env).2.2.2.countP isStatusPoll = 0 ∧
      (switchTurnOn c6Sw c6Hub c6Env).2.2.2.countP isDeviceCommand = 1 ∧
      (momentaryResetRun (switchTurnOn c6Sw c6Hub c6Env).1).1.virtualState = false ∧
      (momentaryResetRun (switchTurnOn c6Sw c6Hub c6Env).1).2.countP isDeviceCommand = 0) := by
  have h := C6_momentary_flow c6Sw c6Hub c6Env (.VBool true) rfl rfl rfl
    (by simp [c6Hub, alookup]) rfl
  exact ⟨rfl, rfl, rfl, by simp [c6Hub, alookup], rfl,
    h.1, h.2.1, h.2.2.2.2.1, h.2.2.2.2.2.1, h.2.2.2.2.2.2.2.1, h.2.2.2.2.2.2.2.2⟩
